import Mathlib

/-!
Shallow embedding of the pathway graph synthesis engine of
`universal-bland-ai-mcp` (file `src/tools/pathways.ts`): the
`DomainSpecificBranchingBuilder` (concept extraction and graph assembly),
the `ModularNodeBuilder` / `ModularPathwayBuilder` factories, and the four
specialized template builders.  TypeScript strings are Lean `String`s,
JS arrays are Lean `List`s, optional / possibly-`undefined` fields are
`Option`s, and the mutable builder state is threaded explicitly.
-/

/-! ## String and number helpers (JS primitives used by the source) -/

/-- Decimal digits of a natural number, most significant first.  This is the
embedding of JS number-to-string interpolation used in template literals
such as the node-id strings. -/
def natDigits (n : Nat) : List Char :=
  if h : n < 10 then [Nat.digitChar n]
  else natDigits (n / 10) ++ [Nat.digitChar (n % 10)]
decreasing_by
  exact Nat.div_lt_self (by omega) (by omega)

/-- Fuel-based (structurally recursive, hence kernel-computable) version of
`natDigits`; the fuel is adequate whenever `n ≤ fuel`. -/
def natDigitsAux : Nat → Nat → List Char
  | 0, n => [Nat.digitChar n]
  | fuel + 1, n =>
    if n < 10 then [Nat.digitChar n]
    else natDigitsAux fuel (n / 10) ++ [Nat.digitChar (n % 10)]

/-- Decimal string of a natural number (JS `${count}` interpolation). -/
def natToString (n : Nat) : String :=
  ⟨natDigitsAux n n⟩

/-- Numeric value of a decimal digit character. -/
def digitVal (c : Char) : Nat := c.toNat - 48

/-- Decode a most-significant-first digit list back to a number. -/
def decodeDigits (l : List Char) : Nat :=
  l.foldl (fun acc c => 10 * acc + digitVal c) 0

theorem digitVal_digitChar {d : Nat} (h : d < 10) :
    digitVal (Nat.digitChar d) = d := by
  interval_cases d <;> rfl

theorem digitChar_ne_underscore {d : Nat} (h : d < 10) :
    Nat.digitChar d ≠ '_' := by
  interval_cases d <;> decide

theorem decodeDigits_natDigits (n : Nat) : decodeDigits (natDigits n) = n := by
  induction n using Nat.strong_induction_on with
  | _ n ih =>
    rw [natDigits]
    by_cases h : n < 10
    · simp only [h, dif_pos]
      simp [decodeDigits, digitVal_digitChar h]
    · simp only [h, dif_neg, not_false_iff]
      have hdiv : n / 10 < n := Nat.div_lt_self (by omega) (by omega)
      have := ih (n / 10) hdiv
      simp only [decodeDigits, List.foldl_append, List.foldl_cons, List.foldl_nil] at this ⊢
      rw [this, digitVal_digitChar (Nat.mod_lt n (by omega))]
      omega

theorem natDigits_injective : Function.Injective natDigits := by
  intro m n h
  have hm := decodeDigits_natDigits m
  have hn := decodeDigits_natDigits n
  rw [h] at hm
  omega

theorem underscore_not_mem_natDigits (n : Nat) : '_' ∉ natDigits n := by
  induction n using Nat.strong_induction_on with
  | _ n ih =>
    rw [natDigits]
    by_cases h : n < 10
    · simp only [h, dif_pos, List.mem_singleton]
      exact fun he => digitChar_ne_underscore h he.symm
    · simp only [h, dif_neg, not_false_iff, List.mem_append, List.mem_singleton]
      rintro (hmem | he)
      · exact ih (n / 10) (Nat.div_lt_self (by omega) (by omega)) hmem
      · exact digitChar_ne_underscore (Nat.mod_lt n (by omega)) he.symm

/-- The id strings the builders generate: a prefix, an underscore, and the
decimal value of a monotonically increasing counter (JS
`` `${prefix}_${++count}` ``). -/
def mkId (p : String) (n : Nat) : String :=
  p ++ "_" ++ natToString n

theorem snoc_underscore_inj :
    ∀ (a : List Char) (b u v : List Char), '_' ∉ u → '_' ∉ v →
      a ++ '_' :: u = b ++ '_' :: v → u = v := by
  intro a
  induction a with
  | nil =>
    intro b u v hu hv h
    cases b with
    | nil => simpa using h
    | cons c b' =>
      simp only [List.nil_append, List.cons_append, List.cons.injEq] at h
      exact absurd (h.2 ▸ List.mem_append_right b' (List.mem_cons_self _ _)) hu
  | cons c a' ih =>
    intro b u v hu hv h
    cases b with
    | nil =>
      simp only [List.cons_append, List.nil_append, List.cons.injEq] at h
      exact absurd (h.2.symm ▸ List.mem_append_right a' (List.mem_cons_self _ _)) hv
    | cons c' b' =>
      simp only [List.cons_append, List.cons.injEq] at h
      exact ih b' u v hu hv h.2

theorem natDigitsAux_eq (fuel : Nat) :
    ∀ n : Nat, n ≤ fuel → natDigitsAux fuel n = natDigits n := by
  induction fuel with
  | zero =>
    intro n hn
    have hn0 : n = 0 := by omega
    subst hn0
    rw [natDigits]
    simp [natDigitsAux]
  | succ f ih =>
    intro n hn
    rw [natDigits]
    by_cases h10 : n < 10
    · simp [natDigitsAux, h10]
    · have hdiv : n / 10 < n := Nat.div_lt_self (by omega) (by omega)
      simp only [natDigitsAux, h10, if_false, dif_neg, not_false_iff]
      rw [ih (n / 10) (by omega)]

theorem natToString_data (n : Nat) : (natToString n).data = natDigits n := by
  simp [natToString, natDigitsAux_eq n n (le_refl n)]

theorem mkId_counter_inj {p q : String} {m n : Nat}
    (h : mkId p m = mkId q n) : m = n := by
  have hd : p.data ++ '_' :: natDigits m = q.data ++ '_' :: natDigits n := by
    have := congrArg String.data h
    simpa [mkId, natToString_data, String.data_append] using this
  exact natDigits_injective
    (snoc_underscore_inj p.data q.data _ _
      (underscore_not_mem_natDigits m) (underscore_not_mem_natDigits n) hd)

theorem mkId_ne_of_counter_ne {p q : String} {m n : Nat} (h : m ≠ n) :
    mkId p m ≠ mkId q n :=
  fun he => h (mkId_counter_inj he)

/-- JS `text.includes(pattern)` on char lists. -/
def jsIncludesList (pat : List Char) : List Char → Bool
  | [] => pat.isPrefixOf []
  | c :: cs => pat.isPrefixOf (c :: cs) || jsIncludesList pat cs

/-- JS `text.includes(pattern)` on strings. -/
def strIncludes (text pat : String) : Bool :=
  jsIncludesList pat.data text.data

theorem jsIncludesList_iff_infix (pat : List Char) (l : List Char) :
    jsIncludesList pat l = true ↔ pat <:+: l := by
  induction l with
  | nil =>
    simp [jsIncludesList, List.isPrefixOf_iff_prefix]
  | cons c cs ih =>
    simp only [jsIncludesList, Bool.or_eq_true, List.isPrefixOf_iff_prefix, ih,
      List.infix_cons_iff]

theorem strIncludes_iff_infix (text pat : String) :
    strIncludes text pat = true ↔ pat.data <:+: text.data := by
  exact jsIncludesList_iff_infix pat.data text.data

theorem strIncludes_trans {a b c : String}
    (h1 : strIncludes b a = true) (h2 : strIncludes c b = true) :
    strIncludes c a = true := by
  rw [ strIncludes_iff_infix] at h1 h2 ⊢
  exact h1.trans h2

/-- JS `s.toLowerCase()`, as a structural map over the char list. -/
def String.lower (s : String) : String := ⟨s.data.map Char.toLower⟩

/-- JS `keywords.some(k => text.includes(k.toLowerCase()))`
(`containsAny` in `DomainSpecificBranchingBuilder`). -/
def containsAny (text : String) (keywords : List String) : Bool :=
  keywords.any (fun keyword => strIncludes text keyword.lower)

/-- Replace every maximal run of whitespace by a single underscore
(JS `s.replace(/\s+/g, '_')`). -/
def replaceWsRun : List Char → List Char
  | [] => []
  | c :: cs =>
    if c.isWhitespace then
      match cs with
      | [] => ['_']
      | c2 :: _ => if c2.isWhitespace then replaceWsRun cs else '_' :: replaceWsRun cs
    else c :: replaceWsRun cs

/-- JS `s.replace(/\s+/g, '_')`. -/
def replaceWs (s : String) : String :=
  ⟨replaceWsRun s.data⟩

/-- JS `s.replace(/_/g, ' ')`. -/
def underscoresToSpaces (s : String) : String :=
  s.map (fun c => if c = '_' then ' ' else c)

/-- JS `word.charAt(0).toUpperCase() + word.slice(1)`. -/
def capitalizeWord (w : String) : String :=
  match w.data with
  | [] => ""
  | c :: cs => ⟨c.toUpper :: cs⟩

/-- JS `s.split(' ')`, as a structural recursion over the char list. -/
def splitOnSpaceAux (acc : List Char) : List Char → List String
  | [] => [⟨acc.reverse⟩]
  | c :: cs =>
    if c = ' ' then ⟨acc.reverse⟩ :: splitOnSpaceAux [] cs
    else splitOnSpaceAux (c :: acc) cs

/-- JS `s.split(' ')`. -/
def splitOnSpace (s : String) : List String := splitOnSpaceAux [] s.data

/-- The `capitalizeWords` helper of `DomainSpecificBranchingBuilder`:
split on single spaces, capitalize each word, join with spaces. -/
def capitalizeWords (s : String) : String :=
  String.intercalate " " ((splitOnSpace s).map capitalizeWord)

/-- JS `x || fallback` for a possibly-`undefined` string `x` (both
`undefined` and the empty string are falsy). -/
def jsOr (x : Option String) (fallback : String) : String :=
  match x with
  | some s => if s = "" then fallback else s
  | none => fallback

/-- The JS empty-object literal used as the `webhookData` fallback. -/
def emptyObj : String := "\x7b\x7d"

/-! ## Data model (`PathwayNode` / `PathwayEdge` and the optional feature
blocks of `PathwayNodeData`, from the interface declarations at the top of
`pathways.ts`) -/

/-- The node `type` discriminator. -/
inductive NodeType where
  | default
  | webhook
  | knowledgeBase
  | endCall
  | transferNode
  | waitForResponse
deriving DecidableEq

/-- One `extractVars` entry `[varName, varType, varDescription, required?]`. -/
structure ExtractVar where
  varName : String
  varType : String
  varDescription : String
  required : Option Bool := none
deriving DecidableEq

/-- One `response_data` entry of a dynamic-data or custom-tool spec. -/
structure ResponseData where
  name : String
  data : String
  context : Option String := none
deriving DecidableEq

/-- An `error_handling` block. -/
structure ErrorHandling where
  on_error : String
  fallback_response : Option String := none
deriving DecidableEq

/-- One `dynamic_data` entry. -/
structure DynamicDataSpec where
  url : String
  method : Option String := none
  query : List (String × String) := []
  body : List (String × String) := []
  cache : Option Bool := none
  timeout : Option Nat := none
  response_data : List ResponseData := []
  error_handling : Option ErrorHandling := none
deriving DecidableEq

/-- A JSON-schema style `input_schema` (property name to type). -/
structure InputSchema where
  schemaType : String
  properties : List (String × String) := []
  required : List String := []
deriving DecidableEq

/-- One `custom_tools` entry. -/
structure CustomTool where
  name : String
  description : String
  input_schema : InputSchema
  speech : Option String := none
  response_data : List ResponseData := []
  timeout : Option Nat := none
  error_handling : Option ErrorHandling := none
deriving DecidableEq

/-- The `ai_features` block. -/
structure AIFeatures where
  sentiment_analysis : Option Bool := none
  emotion_detection : Option Bool := none
  language_detection : Option Bool := none
  cultural_adaptation : Option Bool := none
  real_time_coaching : Option Bool := none
  predictive_routing : Option Bool := none
  conversation_insights : Option Bool := none
  caller_profiling : Option Bool := none
deriving DecidableEq

/-- The `flow_control` block. -/
structure FlowControl where
  can_interrupt : Option Bool := none
  requires_confirmation : Option Bool := none
  retry_attempts : Option Nat := none
  escalation_threshold : Option Nat := none
  conversation_timeout : Option Nat := none
deriving DecidableEq

/-- One `custom_events` entry of an `analytics` block. -/
structure CustomEvent where
  event_name : String
  trigger_condition : String
  data : List (String × String) := []
deriving DecidableEq

/-- The `analytics` block. -/
structure Analytics where
  track_completion : Option Bool := none
  track_duration : Option Bool := none
  track_variables : Option Bool := none
  track_sentiment : Option Bool := none
  custom_events : List CustomEvent := []
deriving DecidableEq

/-- The `global_config` block of a global node. -/
structure GlobalConfig where
  trigger_keywords : List String := []
  priority_level : Option Nat := none
  interrupt_any_node : Option Bool := none
  return_to_previous : Option Bool := none
  context_preservation : Option Bool := none
deriving DecidableEq

/-- One `pathwayExamples` fine-tuning entry. -/
structure PathwayExample where
  userInput : String
  pathway : String
deriving DecidableEq

/-- One `conditionExamples` fine-tuning entry. -/
structure ConditionExample where
  userInput : String
  conditionMet : Bool
deriving DecidableEq

/-- One `dialogueExamples` fine-tuning entry. -/
structure DialogueExample where
  scenario : String
  expectedResponse : String
deriving DecidableEq

/-- The grouped `fine_tuning` block. -/
structure FineTuning where
  pathwayExamples : Option (List PathwayExample) := none
  conditionExamples : Option (List ConditionExample) := none
  dialogueExamples : Option (List DialogueExample) := none
deriving DecidableEq

/-- The `data` payload of a pathway node (`PathwayNodeData`), restricted to
the fields the modeled constructors actually populate. -/
structure PathwayNodeData where
  name : String
  nodeDataType : Option NodeType := none
  isStart : Option Bool := none
  isGlobal : Option Bool := none
  globalLabel : Option String := none
  text : Option String := none
  prompt : Option String := none
  condition : Option String := none
  transferNumber : Option String := none
  kb : Option String := none
  fine_tuning : Option FineTuning := none
  pathwayExamples : Option (List PathwayExample) := none
  conditionExamples : Option (List ConditionExample) := none
  dialogueExamples : Option (List DialogueExample) := none
  extractVars : Option (List ExtractVar) := none
  webhookUrl : Option String := none
  webhookMethod : Option String := none
  webhookData : Option String := none
  dynamic_data : Option (List DynamicDataSpec) := none
  custom_tools : Option (List CustomTool) := none
  ai_features : Option AIFeatures := none
  global_config : Option GlobalConfig := none
  flow_control : Option FlowControl := none
  analytics : Option Analytics := none
deriving DecidableEq

/-- A pathway node. -/
structure PathwayNode where
  id : String
  nodeType : NodeType
  data : PathwayNodeData
deriving DecidableEq

/-- The optional metadata of a pathway edge. -/
structure PathwayEdgeData where
  name : Option String := none
  description : Option String := none
deriving DecidableEq

/-- A pathway edge. -/
structure PathwayEdge where
  id : String
  source : String
  target : String
  label : String
  data : Option PathwayEdgeData := none
deriving DecidableEq

/-- The `\x7b nodes, edges \x7d` result of every builder. -/
structure Graph where
  nodes : List PathwayNode
  edges : List PathwayEdge
deriving DecidableEq

/-! ## `ModularNodeBuilder` (the fluent node factory) -/

/-- The mutable state of a `ModularNodeBuilder`: the chosen id, the current
node type (initially `Default`) and the partially filled data payload. -/
structure ModularNodeBuilder where
  nodeId : String
  nodeType : NodeType
  nodeData : PathwayNodeData

namespace ModularNodeBuilder

/-- The constructor `new ModularNodeBuilder(id, name)`. -/
def new (id name : String) : ModularNodeBuilder :=
  { nodeId := id, nodeType := .default, nodeData := { name := name } }

def asDefault (b : ModularNodeBuilder) : ModularNodeBuilder :=
  { b with nodeType := .default }

def asWebhook (b : ModularNodeBuilder) (url : String)
    (method : String := "POST") : ModularNodeBuilder :=
  { b with nodeType := .webhook,
           nodeData := { b.nodeData with webhookUrl := some url,
                                         webhookMethod := some method } }

def asKnowledgeBase (b : ModularNodeBuilder) (kbContent : String) :
    ModularNodeBuilder :=
  { b with nodeType := .knowledgeBase,
           nodeData := { b.nodeData with kb := some kbContent } }

def asTransfer (b : ModularNodeBuilder) (phoneNumber : String) :
    ModularNodeBuilder :=
  { b with nodeType := .transferNode,
           nodeData := { b.nodeData with transferNumber := some phoneNumber } }

def asEndCall (b : ModularNodeBuilder) : ModularNodeBuilder :=
  { b with nodeType := .endCall }

def asStart (b : ModularNodeBuilder) : ModularNodeBuilder :=
  { b with nodeData := { b.nodeData with isStart := some true } }

def asGlobal (b : ModularNodeBuilder) (label : String)
    (config : Option GlobalConfig := none) : ModularNodeBuilder :=
  { b with nodeData := { b.nodeData with isGlobal := some true,
                                         globalLabel := some label,
                                         global_config := config } }

def withStaticText (b : ModularNodeBuilder) (text : String) :
    ModularNodeBuilder :=
  { b with nodeData := { b.nodeData with text := some text } }

def withPrompt (b : ModularNodeBuilder) (prompt : String) :
    ModularNodeBuilder :=
  { b with nodeData := { b.nodeData with prompt := some prompt } }

def withCondition (b : ModularNodeBuilder) (condition : String) :
    ModularNodeBuilder :=
  { b with nodeData := { b.nodeData with condition := some condition } }

def withVariableExtraction (b : ModularNodeBuilder)
    (vars : List ExtractVar) : ModularNodeBuilder :=
  { b with nodeData := { b.nodeData with extractVars := some vars } }

/-- `withFineTuning` sets both the grouped structure and the legacy
individual properties, and only when at least one argument is present. -/
def withFineTuning (b : ModularNodeBuilder)
    (pathwayExamples : Option (List PathwayExample) := none)
    (conditionExamples : Option (List ConditionExample) := none)
    (dialogueExamples : Option (List DialogueExample) := none) :
    ModularNodeBuilder :=
  if pathwayExamples.isSome || conditionExamples.isSome ||
      dialogueExamples.isSome then
    let d0 := { b.nodeData with
      fine_tuning := some { pathwayExamples := pathwayExamples,
                            conditionExamples := conditionExamples,
                            dialogueExamples := dialogueExamples } }
    let d1 := match pathwayExamples with
      | some pe => { d0 with pathwayExamples := some pe }
      | none => d0
    let d2 := match conditionExamples with
      | some ce => { d1 with conditionExamples := some ce }
      | none => d1
    let d3 := match dialogueExamples with
      | some de => { d2 with dialogueExamples := some de }
      | none => d2
    { b with nodeData := d3 }
  else b

def withDynamicData (b : ModularNodeBuilder)
    (dynamicData : List DynamicDataSpec) : ModularNodeBuilder :=
  { b with nodeData := { b.nodeData with dynamic_data := some dynamicData } }

def withCustomTools (b : ModularNodeBuilder) (tools : List CustomTool) :
    ModularNodeBuilder :=
  { b with nodeData := { b.nodeData with custom_tools := some tools } }

def withAIFeatures (b : ModularNodeBuilder) (features : AIFeatures) :
    ModularNodeBuilder :=
  { b with nodeData := { b.nodeData with ai_features := some features } }

def withFlowControl (b : ModularNodeBuilder) (flowControl : FlowControl) :
    ModularNodeBuilder :=
  { b with nodeData := { b.nodeData with flow_control := some flowControl } }

def withAnalytics (b : ModularNodeBuilder) (analytics : Analytics) :
    ModularNodeBuilder :=
  { b with nodeData := { b.nodeData with analytics := some analytics } }

/-- `build()`: the name falls back to the empty string when falsy, and the
node type is mirrored into the data payload. -/
def build (b : ModularNodeBuilder) : PathwayNode :=
  { id := b.nodeId,
    nodeType := b.nodeType,
    data := { b.nodeData with
      name := if b.nodeData.name = "" then "" else b.nodeData.name,
      nodeDataType := some b.nodeType } }

end ModularNodeBuilder

/-! ## `DomainSpecificBranchingBuilder` (concept extraction and the graph
assembler of `create_modular_pathway`) -/

/-- A detected domain concept (the intermediate records pushed by
`extractDomainSpecificConcepts`; the source field `type` is rendered as
`conceptType`). -/
structure DomainConcept where
  conceptType : String
  condition : String
  description : String
  priority : Nat
deriving DecidableEq

/-- A webhook-integration descriptor from the options bag.  Every field
except `name` may be absent in the caller-supplied JSON. -/
structure WebhookIntegration where
  name : String
  url : Option String := none
  method : Option String := none
  data : Option String := none
deriving DecidableEq

/-- A knowledge-base descriptor from the options bag. -/
structure KnowledgeBase where
  name : String
  content : String
  trigger_phrases : Option (List String) := none
deriving DecidableEq

/-- A transfer descriptor from the options bag. -/
structure TransferTarget where
  name : String
  number : String
  conditions : Option (List String) := none
deriving DecidableEq

/-- The parsed arguments consumed by `buildFromDescription` (after the
handler has parsed the JSON option strings into arrays). -/
structure BuildArgs where
  name : String
  webhook_integrations : List WebhookIntegration := []
  knowledge_bases : List KnowledgeBase := []
  transfer_numbers : List TransferTarget := []
deriving DecidableEq

/-- The mutable per-instance state of `DomainSpecificBranchingBuilder`:
node and edge accumulators plus the two id counters. -/
structure DSBState where
  nodes : List PathwayNode := []
  edges : List PathwayEdge := []
  nodeCount : Nat := 0
  edgeCount : Nat := 0
deriving DecidableEq

namespace DomainSpecificBranchingBuilder

/-- The scan of `extractBusinessType`: find a trigger word and return the
following word (falling back to `business` when that word is empty). -/
def extractBusinessTypeGo : List String → String
  | w1 :: w2 :: rest =>
    if ["business", "company", "service", "sales", "system"].contains w1 then
      (if w2 = "" then "business" else w2)
    else extractBusinessTypeGo (w2 :: rest)
  | _ => "specialized business"

def extractBusinessType (text : String) : String :=
  extractBusinessTypeGo (splitOnSpace text)

def extractPrimaryDomain (description name : String) : String :=
  let combined := (description ++ " " ++ name).lower
  if containsAny combined
      ["health insurance", "medical insurance", "healthcare", "insurance sales"]
  then "health insurance"
  else if containsAny combined
      ["real estate", "property", "home sales", "mortgage", "realtor"]
  then "real estate"
  else if containsAny combined
      ["financial", "investment", "banking", "loans", "finance"]
  then "financial services"
  else if containsAny combined
      ["ecommerce", "online store", "shopping", "retail", "products"]
  then "e-commerce"
  else if containsAny combined
      ["saas", "software", "technology", "platform", "app"]
  then "technology"
  else extractBusinessType combined

def extractPrimaryPurpose (description : String) : String :=
  let lowerDesc := description.lower
  if containsAny lowerDesc ["sales", "selling", "sell"] then "sales"
  else if containsAny lowerDesc ["support", "service", "help"] then
    "customer support"
  else if containsAny lowerDesc ["booking", "appointment", "schedule"] then
    "appointment booking"
  else if containsAny lowerDesc ["consultation", "advisory", "advice"] then
    "consultation"
  else if containsAny lowerDesc ["information", "inquiry", "questions"] then
    "information"
  else "specialized assistance"

/-- The urgency keyword list checked for every domain. -/
def urgencyKeywords : List String :=
  ["urgent", "immediate", "emergency", "asap", "right away"]

/-- The domain-independent urgent-assistance concept (priority 0, the
highest). -/
def urgentConcept : DomainConcept :=
  { conceptType := "urgent_assistance",
    condition := "needs immediate or urgent assistance",
    description := "Urgent assistance and immediate support",
    priority := 0 }

def extractDomainSpecificConcepts (description domain : String) :
    List DomainConcept :=
  let lowerDesc := description.lower
  let concepts :=
    (if domain = "health insurance" then
      (if containsAny lowerDesc ["individual", "single", "personal"] then
        [{ conceptType := "individual_plans",
           condition := "needs individual health insurance coverage",
           description := "Individual health insurance plans and coverage options",
           priority := 1 }]
      else []) ++
      (if containsAny lowerDesc ["family", "spouse", "children", "dependents"] then
        [{ conceptType := "family_coverage",
           condition := "needs family health insurance coverage",
           description := "Family health insurance plans and coverage options",
           priority := 1 }]
      else []) ++
      (if containsAny lowerDesc ["business", "group", "employer", "employees"] then
        [{ conceptType := "group_business_plans",
           condition := "needs business or group health insurance",
           description := "Business and group health insurance solutions",
           priority := 2 }]
      else []) ++
      (if containsAny lowerDesc ["medicare", "senior", "retirement", "65"] then
        [{ conceptType := "medicare_senior_plans",
           condition := "needs Medicare or senior health coverage",
           description := "Medicare and senior health insurance options",
           priority := 1 }]
      else []) ++
      (if containsAny lowerDesc
          ["pre-existing", "medical condition", "chronic", "specialist"] then
        [{ conceptType := "special_medical_needs",
           condition := "has special medical needs or pre-existing conditions",
           description := "Specialized coverage for medical conditions",
           priority := 1 }]
      else []) ++
      (if containsAny lowerDesc
          ["budget", "affordable", "cost", "cheap", "low-cost"] then
        [{ conceptType := "budget_plans",
           condition := "looking for budget-friendly insurance options",
           description := "Affordable health insurance solutions",
           priority := 2 }]
      else []) ++
      (if containsAny lowerDesc
          ["premium", "comprehensive", "best coverage", "top-tier"] then
        [{ conceptType := "premium_coverage",
           condition := "wants premium or comprehensive coverage",
           description := "Premium health insurance with comprehensive benefits",
           priority := 2 }]
      else [])
    else []) ++
    (if containsAny lowerDesc urgencyKeywords then [urgentConcept] else [])
  concepts.mergeSort (fun a b => a.priority ≤ b.priority)

/-- The edge record appended by `createConditionalEdge` at edge-counter
value `edgeCount`. -/
def conditionalEdge (domain sourceId targetId condition description : String)
    (edgeCount : Nat) : PathwayEdge :=
  { id := mkId (replaceWs domain ++ "_edge") edgeCount,
    source := sourceId,
    target := targetId,
    label := condition,
    data := some { name := some (capitalizeWords domain ++ ": " ++ condition),
                   description := some description } }

/-- `createConditionalEdge`: append one labeled edge with metadata. -/
def createConditionalEdge (domain sourceId targetId condition description :
    String) (st : DSBState) : DSBState :=
  let edgeCount := st.edgeCount + 1
  { st with
    edgeCount := edgeCount,
    edges := st.edges ++
      [conditionalEdge domain sourceId targetId condition description
        edgeCount] }

/-- The hub node built by `createDomainSpecificHub` at counter value `n`. -/
def domainSpecificHubNode (domain purpose : String) (concepts : List DomainConcept)
    (n : Nat) : PathwayNode :=
  let conceptTypes := String.intercalate ", " (concepts.map (·.description))
  { id := mkId (replaceWs domain ++ "_hub") n,
    nodeType := .default,
    data := {
      name := capitalizeWords domain ++ " " ++ capitalizeWords purpose ++ " Hub",
      nodeDataType := some .default,
      isStart := some true,
      prompt := some ("Welcome! I\x27m your " ++ domain ++ " " ++ purpose ++
        " specialist. \n                 I can help you with: " ++ conceptTypes ++
        ".\n                 What specific " ++ domain ++
        " assistance do you need today?"),
      extractVars := some [
        { varName := replaceWs domain ++ "_need", varType := "string",
          varDescription := "Specific " ++ domain ++ " requirement" },
        { varName := "customer_category", varType := "string",
          varDescription := "Type of customer or situation" },
        { varName := "urgency_level", varType := "string",
          varDescription := "How urgent their need is" },
        { varName := "budget_range", varType := "string",
          varDescription := "Budget considerations if applicable" }] } }

def createDomainSpecificHub (domain purpose : String)
    (concepts : List DomainConcept) (st : DSBState) : DSBState × String :=
  let n := st.nodeCount + 1
  let node := domainSpecificHubNode domain purpose concepts n
  ({ st with nodeCount := n, nodes := st.nodes ++ [node] }, node.id)

/-- `getDomainVariablesForConcept`: the per-concept variable-extraction
schema (base variables plus health-insurance specifics). -/
def getDomainVariablesForConcept (conceptType domain : String) :
    List ExtractVar :=
  let baseVars : List ExtractVar := [
    { varName := conceptType ++ "_preference", varType := "string",
      varDescription := "Specific preferences for " ++
        underscoresToSpaces conceptType,
      required := some true },
    { varName := conceptType ++ "_timeline", varType := "string",
      varDescription := "Timeline for " ++ underscoresToSpaces conceptType,
      required := some false }]
  if domain = "health insurance" then
    if conceptType = "individual_plans" then
      baseVars ++ [
        { varName := "current_health_status", varType := "string",
          varDescription := "Current health status and medical needs",
          required := some true },
        { varName := "preferred_deductible", varType := "string",
          varDescription := "Preferred deductible range",
          required := some false },
        { varName := "doctor_preferences", varType := "string",
          varDescription := "Preferred doctors or networks",
          required := some false },
        { varName := "monthly_budget", varType := "string",
          varDescription := "Monthly premium budget", required := some true },
        { varName := "prescription_medications", varType := "string",
          varDescription := "Current prescription medications",
          required := some false },
        { varName := "coverage_priorities", varType := "string",
          varDescription := "Most important coverage priorities",
          required := some true }]
    else if conceptType = "family_coverage" then
      baseVars ++ [
        { varName := "family_size", varType := "integer",
          varDescription := "Number of family members to cover",
          required := some true },
        { varName := "ages_of_dependents", varType := "string",
          varDescription := "Ages of spouse and children",
          required := some true },
        { varName := "maternity_needs", varType := "boolean",
          varDescription := "Whether maternity coverage is needed",
          required := some false },
        { varName := "pediatric_needs", varType := "string",
          varDescription := "Specific pediatric care requirements",
          required := some false },
        { varName := "family_medical_history", varType := "string",
          varDescription := "Relevant family medical history",
          required := some false },
        { varName := "childcare_providers", varType := "string",
          varDescription := "Preferred pediatricians or hospitals",
          required := some false }]
    else if conceptType = "medicare_senior_plans" then
      baseVars ++ [
        { varName := "age", varType := "integer",
          varDescription := "Age of primary beneficiary",
          required := some true },
        { varName := "current_medicare_status", varType := "string",
          varDescription := "Current Medicare enrollment status",
          required := some true },
        { varName := "prescription_needs", varType := "string",
          varDescription := "Current prescription medications",
          required := some false },
        { varName := "supplement_interest", varType := "boolean",
          varDescription := "Interest in supplemental coverage",
          required := some false },
        { varName := "retirement_status", varType := "string",
          varDescription := "Current retirement status",
          required := some false },
        { varName := "healthcare_frequency", varType := "string",
          varDescription := "How often you visit healthcare providers",
          required := some false }]
    else if conceptType = "group_business_plans" then
      baseVars ++ [
        { varName := "business_size", varType := "integer",
          varDescription := "Number of employees", required := some true },
        { varName := "business_type", varType := "string",
          varDescription := "Type of business or industry",
          required := some true },
        { varName := "current_coverage", varType := "string",
          varDescription := "Current group coverage if any",
          required := some false },
        { varName := "budget_per_employee", varType := "string",
          varDescription := "Budget per employee per month",
          required := some false },
        { varName := "employee_demographics", varType := "string",
          varDescription := "General age range and family status",
          required := some false },
        { varName := "coverage_requirements", varType := "string",
          varDescription := "Specific coverage requirements",
          required := some false }]
    else baseVars
  else baseVars

/-- The health-insurance `dynamic_data` block attached to concept nodes. -/
def healthInsuranceDynamicData : List DynamicDataSpec :=
  [{ url := "https://api.healthcare.gov/plans",
     method := some "GET",
     query := [("state", "\x7b\x7bcustomer_state\x7d\x7d"),
               ("age", "\x7b\x7bcustomer_age\x7d\x7d"),
               ("income", "\x7b\x7bhousehold_income\x7d\x7d")],
     cache := some true,
     timeout := some 5000,
     response_data := [
       { name := "available_plans", data := "$.plans[*].name",
         context := some "Available insurance plans: \x7b\x7bavailable_plans\x7d\x7d" },
       { name := "premium_estimates", data := "$.plans[*].premium",
         context := some "Premium estimates: \x7b\x7bpremium_estimates\x7d\x7d" }],
     error_handling := some
       { on_error := "continue",
         fallback_response := some "I\x27ll provide general plan information instead." } }]

/-- The health-insurance `custom_tools` block attached to concept nodes. -/
def healthInsuranceCustomTools : List CustomTool :=
  [{ name := "premium_calculator",
     description := "Calculate personalized insurance premiums",
     input_schema :=
       { schemaType := "object",
         properties := [("age", "integer"), ("location", "string"),
                        ("plan_type", "string")],
         required := ["age", "location", "plan_type"] },
     speech := some "Let me calculate your personalized premium...",
     response_data := [
       { name := "calculated_premium", data := "$.monthly_premium" },
       { name := "deductible", data := "$.annual_deductible" }],
     timeout := some 10000,
     error_handling := some
       { on_error := "continue",
         fallback_response := some "I\x27ll provide general pricing estimates instead." } }]

/-- The concept node built by `createDomainConceptNode` at counter value
`n`, assembled through the `ModularNodeBuilder` chain of the source. -/
def domainConceptNode (domain : String) (concept : DomainConcept) (n : Nat) :
    PathwayNode :=
  let nodeId := mkId (concept.conceptType ++ "_specialist") n
  let conceptVars := getDomainVariablesForConcept concept.conceptType domain
  let nodeBuilder :=
    (ModularNodeBuilder.new nodeId
        (capitalizeWords (underscoresToSpaces concept.conceptType) ++ " Specialist"))
      |>.asDefault
      |>.withPrompt ("Perfect! I specialize in " ++ concept.description.lower ++
        " for " ++ domain ++
        ".\n                   Based on your " ++ domain ++
        " needs, let me provide you with the best options.\n                   I\x27ll gather some information to give you personalized recommendations.")
      |>.withCondition ("Must fully address " ++
        underscoresToSpaces concept.conceptType ++ " requirements")
      |>.withVariableExtraction conceptVars
      |>.withAIFeatures { sentiment_analysis := some true,
                          emotion_detection := some true,
                          conversation_insights := some true,
                          caller_profiling := some true }
      |>.withFlowControl { can_interrupt := some true,
                           requires_confirmation := some false,
                           retry_attempts := some 3,
                           escalation_threshold := some 2,
                           conversation_timeout := some 1800 }
      |>.withAnalytics { track_completion := some true,
                         track_duration := some true,
                         track_variables := some true,
                         track_sentiment := some true,
                         custom_events := [
                           { event_name := concept.conceptType ++
                               "_interaction_started",
                             trigger_condition := "node_entered",
                             data := [("concept_type", concept.conceptType),
                                      ("domain", domain)] }] }
  let nodeBuilder :=
    if domain = "health insurance" then
      (nodeBuilder.withDynamicData healthInsuranceDynamicData).withCustomTools
        healthInsuranceCustomTools
    else nodeBuilder
  let nodeBuilder :=
    if domain = "health insurance" then
      nodeBuilder.withFineTuning
        (some [{ userInput := "I need affordable insurance",
                 pathway := "budget_plans" },
               { userInput := "I have diabetes",
                 pathway := "special_medical_needs" },
               { userInput := "Family of four", pathway := "family_coverage" }])
        (some [{ userInput := "I need insurance right away",
                 conditionMet := true },
               { userInput := "Just looking around", conditionMet := false }])
        (some [{ scenario := "Customer mentions pre-existing condition",
                 expectedResponse := "I understand you have specific medical needs. Let me explain how our plans cover pre-existing conditions..." },
               { scenario := "Customer asks about family coverage",
                 expectedResponse := "For family coverage, I\x27ll need to understand your family size and specific needs..." }])
    else nodeBuilder
  nodeBuilder.build

def createDomainConceptNode (domain : String) (concept : DomainConcept)
    (st : DSBState) : DSBState × String :=
  let n := st.nodeCount + 1
  let node := domainConceptNode domain concept n
  ({ st with nodeCount := n, nodes := st.nodes ++ [node] },
   mkId (concept.conceptType ++ "_specialist") n)

/-- The webhook node built by `createDomainWebhookNode` at counter `n`. -/
def domainWebhookNode (domain : String) (webhook : WebhookIntegration)
    (n : Nat) : PathwayNode :=
  { id := mkId (replaceWs domain ++ "_" ++ (replaceWs webhook.name).lower) n,
    nodeType := .webhook,
    data := {
      name := capitalizeWords domain ++ " " ++ webhook.name,
      nodeDataType := some .webhook,
      prompt := some ("Processing your " ++ domain ++
        " request through our " ++ webhook.name ++ "..."),
      webhookUrl := webhook.url,
      webhookMethod := some (jsOr webhook.method "POST"),
      webhookData := some (jsOr webhook.data emptyObj) } }

def createDomainWebhookNode (domain : String) (webhook : WebhookIntegration)
    (st : DSBState) : DSBState × String :=
  let n := st.nodeCount + 1
  let node := domainWebhookNode domain webhook n
  ({ st with nodeCount := n, nodes := st.nodes ++ [node] }, node.id)

/-- The knowledge-base node built by `createDomainKnowledgeBaseNode`. -/
def domainKnowledgeBaseNode (domain : String) (kb : KnowledgeBase)
    (n : Nat) : PathwayNode :=
  { id := mkId (replaceWs domain ++ "_" ++ (replaceWs kb.name).lower) n,
    nodeType := .knowledgeBase,
    data := {
      name := capitalizeWords domain ++ " " ++ kb.name,
      nodeDataType := some .knowledgeBase,
      prompt := some ("Let me search our comprehensive " ++ domain ++ " " ++
        kb.name.lower ++
        " for the best information to answer your question."),
      kb := some kb.content } }

def createDomainKnowledgeBaseNode (domain : String) (kb : KnowledgeBase)
    (st : DSBState) : DSBState × String :=
  let n := st.nodeCount + 1
  let node := domainKnowledgeBaseNode domain kb n
  ({ st with nodeCount := n, nodes := st.nodes ++ [node] }, node.id)

/-- The transfer node built by `createDomainTransferNode`. -/
def domainTransferNode (domain : String) (transfer : TransferTarget)
    (n : Nat) : PathwayNode :=
  { id := mkId (replaceWs domain ++ "_" ++ (replaceWs transfer.name).lower) n,
    nodeType := .transferNode,
    data := {
      name := capitalizeWords domain ++ " " ++ transfer.name,
      nodeDataType := some .transferNode,
      prompt := some ("I\x27m connecting you with our " ++ domain ++ " " ++
        transfer.name.lower ++
        " who can provide specialized assistance with your needs."),
      transferNumber := some transfer.number } }

def createDomainTransferNode (domain : String) (transfer : TransferTarget)
    (st : DSBState) : DSBState × String :=
  let n := st.nodeCount + 1
  let node := domainTransferNode domain transfer n
  ({ st with nodeCount := n, nodes := st.nodes ++ [node] }, node.id)

/-- The resolution node built by `createDomainResolutionNode`. -/
def domainResolutionNode (domain : String) (n : Nat) : PathwayNode :=
  { id := mkId (replaceWs domain ++ "_resolution") n,
    nodeType := .default,
    data := {
      name := capitalizeWords domain ++ " Resolution & Satisfaction",
      nodeDataType := some .default,
      prompt := some ("Great! Let me confirm that we\x27ve addressed all your " ++
        domain ++
        " needs today.\n                 Are you satisfied with the " ++ domain ++
        " information and assistance provided?\n                 Do you have any other " ++
        domain ++ " questions or needs?"),
      extractVars := some [
        { varName := replaceWs domain ++ "_satisfaction", varType := "string",
          varDescription := "Satisfaction with " ++ domain ++ " service" },
        { varName := "additional_" ++ replaceWs domain ++ "_needs",
          varType := "boolean",
          varDescription := "Additional " ++ domain ++ " assistance needed" },
        { varName := "next_steps", varType := "string",
          varDescription := "Next steps customer wants to take" }] } }

def createDomainResolutionNode (domain : String) (st : DSBState) :
    DSBState × String :=
  let n := st.nodeCount + 1
  let node := domainResolutionNode domain n
  ({ st with nodeCount := n, nodes := st.nodes ++ [node] }, node.id)

/-- The End Call node built by `createDomainCompletionNode`. -/
def domainCompletionNode (domain : String) (n : Nat) : PathwayNode :=
  { id := mkId (replaceWs domain ++ "_completion") n,
    nodeType := .endCall,
    data := {
      name := capitalizeWords domain ++ " Service Complete",
      nodeDataType := some .endCall,
      prompt := some ("Thank you for choosing " ++ domain ++
        "! We\x27re always here to help.\n                 Your ticket number is \x7b\x7bticket_number\x7d\x7d for reference. Have a great day!") } }

def createDomainCompletionNode (domain : String) (st : DSBState) :
    DSBState × String :=
  let n := st.nodeCount + 1
  let node := domainCompletionNode domain n
  ({ st with nodeCount := n, nodes := st.nodes ++ [node] }, node.id)

/-- Step 4 of `buildFromDescription`: one concept node plus its hub edge per
concept, collecting the `(concept.type, nodeId)` pairs of the
`conceptNodeIds` map in insertion order. -/
def conceptLoop (domain hubId : String) :
    List DomainConcept → DSBState → DSBState × List (String × String)
  | [], st => (st, [])
  | concept :: rest, st =>
    let (st1, nodeId) := createDomainConceptNode domain concept st
    let st2 := createConditionalEdge domain hubId nodeId concept.condition
      concept.description st1
    let (st3, pairs) := conceptLoop domain hubId rest st2
    (st3, (concept.conceptType, nodeId) :: pairs)

/-- Step 5: one webhook node plus its hub edge per integration. -/
def webhookLoop (domain hubId : String) :
    List WebhookIntegration → DSBState → DSBState
  | [], st => st
  | webhook :: rest, st =>
    let (st1, webhookId) := createDomainWebhookNode domain webhook st
    let st2 := createConditionalEdge domain hubId webhookId
      ("needs " ++ webhook.name.lower)
      ("Route to " ++ webhook.name ++ " for domain-specific processing") st1
    webhookLoop domain hubId rest st2

/-- Step 6: one knowledge-base node plus its hub edge per entry. -/
def kbLoop (domain hubId : String) :
    List KnowledgeBase → DSBState → DSBState
  | [], st => st
  | kb :: rest, st =>
    let (st1, kbId) := createDomainKnowledgeBaseNode domain kb st
    let triggerCondition :=
      jsOr (kb.trigger_phrases.map (String.intercalate " or "))
        ("questions about " ++ kb.name.lower)
    let st2 := createConditionalEdge domain hubId kbId
      ("asks about " ++ triggerCondition)
      ("Provide specialized information from " ++ kb.name) st1
    kbLoop domain hubId rest st2

/-- Step 7: one transfer node plus its hub edge per target. -/
def transferLoop (domain hubId : String) :
    List TransferTarget → DSBState → DSBState
  | [], st => st
  | transfer :: rest, st =>
    let (st1, transferId) := createDomainTransferNode domain transfer st
    let conditions :=
      jsOr (transfer.conditions.map (String.intercalate " or "))
        ("needs " ++ transfer.name.lower)
    let st2 := createConditionalEdge domain hubId transferId conditions
      ("Transfer to " ++ transfer.name ++ " for specialized assistance") st1
    transferLoop domain hubId rest st2

/-- The resolution edges created from the `conceptNodeIds` map. -/
def conceptResolutionLoop (domain resolutionId : String) :
    List (String × String) → DSBState → DSBState
  | [], st => st
  | (conceptType, nodeId) :: rest, st =>
    let st1 := createConditionalEdge domain nodeId resolutionId
      (conceptType ++ " assistance complete")
      ("Complete " ++ conceptType ++ " assistance and assess satisfaction") st
    conceptResolutionLoop domain resolutionId rest st1

/-- The resolution edges created from the `otherNodeIds` list. -/
def otherResolutionLoop (domain resolutionId : String) :
    List String → DSBState → DSBState
  | [], st => st
  | nodeId :: rest, st =>
    let st1 := createConditionalEdge domain nodeId resolutionId
      "service completed successfully"
      "Complete service and assess customer satisfaction" st
    otherResolutionLoop domain resolutionId rest st1

/-- `buildFromDescription`: the full graph assembly. -/
def buildFromDescription (description : String) (args : BuildArgs) : Graph :=
  let domain := extractPrimaryDomain description args.name
  let purpose := extractPrimaryPurpose description
  let domainConcepts := extractDomainSpecificConcepts description domain
  let st0 : DSBState := {}
  let r1 := createDomainSpecificHub domain purpose domainConcepts st0
  let st1 := r1.1
  let hubId := r1.2
  let r2 := conceptLoop domain hubId domainConcepts st1
  let st2 := r2.1
  let conceptNodeIds := r2.2
  let st3 := if 0 < args.webhook_integrations.length then
      webhookLoop domain hubId args.webhook_integrations st2
    else st2
  let st4 := if 0 < args.knowledge_bases.length then
      kbLoop domain hubId args.knowledge_bases st3
    else st3
  let st5 := if 0 < args.transfer_numbers.length then
      transferLoop domain hubId args.transfer_numbers st4
    else st4
  let r6 := createDomainResolutionNode domain st5
  let st6 := r6.1
  let resolutionId := r6.2
  let r7 := createDomainCompletionNode domain st6
  let st7 := r7.1
  let completionId := r7.2
  let st8 := conceptResolutionLoop domain resolutionId conceptNodeIds st7
  let st9 :=
    if 0 < args.webhook_integrations.length ∨
        0 < args.knowledge_bases.length ∨
        0 < args.transfer_numbers.length then
      let otherNodeIds :=
        ((st8.nodes.filter (fun node =>
            node.id ≠ hubId ∧ node.id ≠ resolutionId ∧
            node.id ≠ completionId)).filter (fun node =>
              ¬ (conceptNodeIds.map Prod.fst).contains node.id)).map (·.id)
      otherResolutionLoop domain resolutionId otherNodeIds st8
    else st8
  let st10 := createConditionalEdge domain resolutionId completionId
    ("satisfied with " ++ domain ++ " service")
    ("Complete " ++ domain ++ " interaction") st9
  let st11 := createConditionalEdge domain resolutionId hubId
    ("additional " ++ domain ++ " needs")
    ("Return to " ++ domain ++ " options") st10
  { nodes := st11.nodes, edges := st11.edges }

end DomainSpecificBranchingBuilder

/-! ## `ModularPathwayBuilder` and the specialized template builders -/

/-- The mutable state of a `ModularPathwayBuilder`. -/
structure ModularPathwayBuilder where
  nodes : List PathwayNode := []
  edges : List PathwayEdge := []
  nodeCount : Nat := 0
  edgeCount : Nat := 0

namespace ModularPathwayBuilder

/-- `addNode`: build the node, push it, return its id. -/
def addNode (b : ModularPathwayBuilder) (nb : ModularNodeBuilder) :
    ModularPathwayBuilder × String :=
  let node := nb.build
  ({ b with nodes := b.nodes ++ [node] }, node.id)

/-- `addEdge`: push a labeled edge with a fresh `edge_<n>` id. -/
def addEdge (b : ModularPathwayBuilder) (source target label : String)
    (metadata : Option (String × String) := none) : ModularPathwayBuilder :=
  let edgeCount := b.edgeCount + 1
  { b with
    edgeCount := edgeCount,
    edges := b.edges ++
      [{ id := mkId "edge" edgeCount, source := source, target := target,
         label := label,
         data := metadata.map (fun m =>
           { name := some m.1, description := some m.2 }) }] }

/-- `createNode`: allocate a fresh `node_<n>` id and hand out a node
builder. -/
def createNode (b : ModularPathwayBuilder) (name : String) :
    ModularPathwayBuilder × ModularNodeBuilder :=
  let nodeCount := b.nodeCount + 1
  ({ b with nodeCount := nodeCount },
   ModularNodeBuilder.new (mkId "node" nodeCount) name)

/-- `build()`: the finished graph. -/
def build (b : ModularPathwayBuilder) : Graph :=
  { nodes := b.nodes, edges := b.edges }

end ModularPathwayBuilder

/-- The arguments of `buildEnterpriseSalesPathway`. -/
structure SalesArgs where
  company_name : String
  product_or_service : String
  lead_scoring : Option String := none
  objection_handling : Option String := none
  transfer_number : Option String := none
  webhook_url : Option String := none

/-- `buildEnterpriseSalesPathway`: the fixed-topology enterprise sales
template. -/
def buildEnterpriseSalesPathway (args : SalesArgs) : Graph :=
  let b : ModularPathwayBuilder := {}
  let (b, nb) := b.createNode "Sales Help & Clarification"
  let (b, _helpNodeId) := b.addNode
    ((nb.asGlobal "help"
        (some { trigger_keywords := ["help", "confused", "what", "explain",
                                     "clarify"],
                priority_level := some 10,
                interrupt_any_node := some true,
                return_to_previous := some true,
                context_preservation := some true }))
      |>.withPrompt "I\x27m here to help clarify anything about our sales process or products. What specific information can I provide?"
      |>.withAIFeatures { sentiment_analysis := some true,
                          emotion_detection := some true,
                          conversation_insights := some true })
  let (b, nb) := b.createNode (args.company_name ++ " Enterprise Sales")
  let (b, qualificationHubId) := b.addNode
    (nb.asStart
      |>.withPrompt ("Welcome to " ++ args.company_name ++
        "! I\x27m your enterprise sales specialist for " ++
        args.product_or_service ++
        ". \n                   I\x27ll help qualify your needs and connect you with the right solutions.\n                   To provide the best recommendations, let me understand your requirements.")
      |>.withVariableExtraction [
        { varName := "company_name", varType := "string",
          varDescription := "Prospect company name", required := some true },
        { varName := "company_size", varType := "integer",
          varDescription := "Number of employees", required := some true },
        { varName := "annual_revenue", varType := "string",
          varDescription := "Annual company revenue", required := some false },
        { varName := "current_solution", varType := "string",
          varDescription := "Current solution in use",
          required := some false },
        { varName := "decision_timeframe", varType := "string",
          varDescription := "Decision timeline", required := some true },
        { varName := "budget_authority", varType := "boolean",
          varDescription := "Has budget authority", required := some true },
        { varName := "pain_points", varType := "string",
          varDescription := "Current challenges", required := some true }]
      |>.withAIFeatures { sentiment_analysis := some true,
                          emotion_detection := some true,
                          caller_profiling := some true,
                          conversation_insights := some true }
      |>.withAnalytics { track_completion := some true,
                         track_variables := some true,
                         custom_events := [
                           { event_name := "qualification_started",
                             trigger_condition := "node_entered",
                             data := [("company", args.company_name)] }] })
  let (b, nb) := b.createNode "Enterprise Lead Scoring"
  let (b, leadScoringId) := b.addNode
    ((nb.withPrompt ("Based on your information, let me calculate your qualification score and determine the best next steps.\n                   " ++
        jsOr args.lead_scoring
          "Evaluating company fit, budget authority, timeline, and technical requirements."))
      |>.withCustomTools [
        { name := "lead_scorer",
          description := "Calculate enterprise lead qualification score",
          input_schema :=
            { schemaType := "object",
              properties := [("company_size", "integer"),
                             ("budget_authority", "boolean"),
                             ("timeline", "string"),
                             ("pain_points", "string")],
              required := ["company_size", "budget_authority"] },
          speech := some "Let me calculate your qualification score...",
          response_data := [
            { name := "lead_score", data := "$.score" },
            { name := "qualification_tier", data := "$.tier" }] }]
      |>.withCondition "Must calculate lead score before proceeding")
  let (b, nb) := b.createNode "Objection Resolution Specialist"
  let (b, _objectionNodeId) := b.addNode
    ((nb.asGlobal "objection"
        (some { trigger_keywords := ["expensive", "too much", "budget",
                                     "competitor", "concern", "worried",
                                     "problem"],
                priority_level := some 9,
                interrupt_any_node := some true,
                return_to_previous := some true }))
      |>.withPrompt ("I understand your concerns. Let me address that specifically.\n                   " ++
        jsOr args.objection_handling
          "Common concerns include pricing, implementation, and ROI. Let me provide detailed information.")
      |>.withFineTuning
        (some [{ userInput := "Too expensive",
                 pathway := "roi_demonstration" },
               { userInput := "Implementation concerns",
                 pathway := "implementation_support" },
               { userInput := "Competitor comparison",
                 pathway := "competitive_differentiation" }])
        (some [{ userInput := "This sounds too complex",
                 conditionMet := true },
               { userInput := "We need to think about it",
                 conditionMet := true }])
        (some [{ scenario := "Price objection",
                 expectedResponse := "I understand budget is important. Let me show you the ROI calculations..." },
               { scenario := "Competitor mention",
                 expectedResponse := "Great question! Here\x27s how we compare specifically..." }]))
  let (b, nb) := b.createNode "High-Value Enterprise Specialist"
  let (b, highValueId) := b.addNode
    ((nb.withPrompt ("Excellent! Based on your qualification, you\x27re a perfect fit for our enterprise solution.\n                   Let me connect you with our senior sales executive who specializes in " ++
        args.product_or_service ++
        ".\n                   They\x27ll provide a custom demo and enterprise pricing."))
      |>.withCondition "Lead score >= 50 points"
      |>.withDynamicData [
        { url := jsOr args.webhook_url
            "https://api.salesforce.com/high-value-leads",
          method := some "POST",
          body := [("company", "\x7b\x7bcompany_name\x7d\x7d"),
                   ("score", "\x7b\x7blead_score\x7d\x7d"),
                   ("priority", "high")],
          response_data := [
            { name := "sales_rep_assigned", data := "$.assigned_rep" },
            { name := "demo_scheduled", data := "$.demo_time" }] }])
  let (b, nb) := b.createNode "Qualified Prospect Specialist"
  let (b, qualifiedId) := b.addNode
    ((nb.withPrompt ("Great! You qualify for our enterprise program. Let me schedule a detailed consultation\n                   to show you exactly how " ++
        args.product_or_service ++ " can solve your specific challenges."))
      |>.withCondition "Lead score >= 40 points"
      |>.withVariableExtraction [
        { varName := "preferred_demo_time", varType := "string",
          varDescription := "Preferred demo scheduling",
          required := some true },
        { varName := "key_stakeholders", varType := "string",
          varDescription := "Other decision makers", required := some false },
        { varName := "technical_requirements", varType := "string",
          varDescription := "Technical integration needs",
          required := some false }])
  let (b, nb) := b.createNode "Prospect Nurturing System"
  let (b, nurtureId) := b.addNode
    ((nb.withPrompt "Thanks for your interest! While you may not be ready for our enterprise solution right now,\n                   I\x27d love to keep you informed about our developments and check back in the future.")
      |>.withCondition "Lead score < 40 points"
      |>.withVariableExtraction [
        { varName := "follow_up_timeframe", varType := "string",
          varDescription := "When to follow up", required := some true },
        { varName := "information_interests", varType := "string",
          varDescription := "Types of information wanted",
          required := some false }])
  let (b, nb) := b.createNode "Enterprise Sales Executive Transfer"
  let (b, transferId) := b.addNode
    ((nb.asTransfer (jsOr args.transfer_number "+1-800-ENTERPRISE"))
      |>.withPrompt ("Perfect! I\x27m transferring you to our enterprise sales executive who will provide\n                   a personalized consultation and enterprise pricing for " ++
        args.company_name ++ "."))
  let (b, nb) := b.createNode "Sales Process Complete"
  let (b, completionId) := b.addNode
    (nb.asEndCall
      |>.withPrompt ("Thank you for considering " ++ args.company_name ++
        "! We\x27re excited about the opportunity\n                   to help transform your business with " ++
        args.product_or_service ++ "."))
  let b := b.addEdge qualificationHubId leadScoringId
    "completed qualification questions"
    (some ("Qualification Complete",
           "All required qualification data collected"))
  let b := b.addEdge leadScoringId highValueId
    "high-value enterprise prospect"
    (some ("High-Value Route", "Score >= 50, enterprise fit"))
  let b := b.addEdge leadScoringId qualifiedId "qualified enterprise prospect"
    (some ("Qualified Route", "Score >= 40, good fit"))
  let b := b.addEdge leadScoringId nurtureId "prospect needs nurturing"
    (some ("Nurture Route", "Score < 40, future potential"))
  let b := b.addEdge highValueId transferId "ready for executive consultation"
    (some ("Executive Transfer",
           "High-value prospect ready for senior sales"))
  let b := b.addEdge qualifiedId transferId "ready for detailed demo"
    (some ("Demo Transfer", "Qualified prospect ready for demo"))
  let b := b.addEdge transferId completionId "transfer completed"
    (some ("Process Complete", "Successfully transferred to sales team"))
  let b := b.addEdge nurtureId completionId "nurture process complete"
    (some ("Nurture Complete", "Added to nurture campaign"))
  b.build

/-- The arguments of `buildAdvancedCustomerServicePathway` (after the
handler has split `service_types` into an array). -/
structure ServiceArgs where
  company_name : String
  service_types : List String
  knowledge_base_content : Option String := none
  escalation_number : Option String := none
  resolution_webhook : Option String := none
  satisfaction_tracking : Bool := true

/-- The per-service-type specialist node loop, threading the
`specialistNodes` record (a JS object: later writes to the same key win). -/
def csSpecialistLoop (resolution_webhook : Option String) :
    List String → ModularPathwayBuilder → (String → Option String) →
    ModularPathwayBuilder × (String → Option String)
  | [], b, specialistNodes => (b, specialistNodes)
  | serviceType :: rest, b, specialistNodes =>
    let (b, nb) := b.createNode (capitalizeWord serviceType ++ " Specialist")
    let (b, specialistId) := b.addNode
      ((nb.withPrompt ("I\x27m your " ++ serviceType ++
          " specialist. I have access to all the tools and information needed\n                     to resolve your " ++
          serviceType ++ " issues quickly and effectively."))
        |>.withCondition ("Issue classified as " ++ serviceType)
        |>.withVariableExtraction [
          { varName := serviceType ++ "_details", varType := "string",
            varDescription := "Specific " ++ serviceType ++ " issue details",
            required := some true },
          { varName := serviceType ++ "_resolution_preference",
            varType := "string",
            varDescription := "Preferred resolution method",
            required := some false }]
        |>.withDynamicData [
          { url := jsOr resolution_webhook "https://api.support.com/tickets",
            method := some "POST",
            body := [("customer_email", "\x7b\x7bcustomer_email\x7d\x7d"),
                     ("issue_type", serviceType),
                     ("details",
                      "\x7b\x7b" ++ serviceType ++ "_details\x7d\x7d"),
                     ("priority", "\x7b\x7burgency_level\x7d\x7d")],
            response_data := [
              { name := "ticket_number", data := "$.ticket_id" },
              { name := "resolution_steps",
                data := "$.recommended_steps" }] }]
        |>.withAnalytics { track_completion := some true,
                           track_duration := some true,
                           custom_events := [
                             { event_name := serviceType ++ "_issue_started",
                               trigger_condition := "node_entered",
                               data := [("type", serviceType)] }] })
    csSpecialistLoop resolution_webhook rest b
      (fun k => if k = serviceType then some specialistId
                else specialistNodes k)

/-- The classification-to-specialist edge loop. -/
def csClassificationEdgeLoop (classificationId : String)
    (specialistNodes : String → Option String) :
    List String → ModularPathwayBuilder → ModularPathwayBuilder
  | [], b => b
  | serviceType :: rest, b =>
    let b := b.addEdge classificationId
      ((specialistNodes serviceType).getD "undefined")
      ("issue classified as " ++ serviceType)
      (some (serviceType ++ " Route",
             "Route to " ++ serviceType ++ " specialist"))
    csClassificationEdgeLoop classificationId specialistNodes rest b

/-- The specialist-to-satisfaction edge loop. -/
def csResolutionEdgeLoop (satisfactionId : String)
    (specialistNodes : String → Option String) :
    List String → ModularPathwayBuilder → ModularPathwayBuilder
  | [], b => b
  | serviceType :: rest, b =>
    let b := b.addEdge ((specialistNodes serviceType).getD "undefined")
      satisfactionId (serviceType ++ " issue resolved")
      (some ("Resolution Complete",
             serviceType ++ " issue successfully resolved"))
    csResolutionEdgeLoop satisfactionId specialistNodes rest b

/-- `buildAdvancedCustomerServicePathway`: the multi-specialist customer
service template. -/
def buildAdvancedCustomerServicePathway (args : ServiceArgs) : Graph :=
  let b : ModularPathwayBuilder := {}
  let (b, nb) := b.createNode "Escalation Manager"
  let (b, _escalationNodeId) := b.addNode
    ((nb.asGlobal "escalate"
        (some { trigger_keywords := ["manager", "supervisor", "escalate",
                                     "complaint", "unsatisfied", "angry"],
                priority_level := some 10,
                interrupt_any_node := some true,
                return_to_previous := some false }))
      |>.withPrompt "I understand you\x27d like to speak with a manager. Let me connect you with our escalation team\n                   who can provide additional assistance and ensure your concerns are properly addressed."
      |>.asTransfer (jsOr args.escalation_number "+1-800-ESCALATE"))
  let (b, nb) := b.createNode (args.company_name ++ " Customer Service")
  let (b, serviceHubId) := b.addNode
    (nb.asStart
      |>.withPrompt ("Hello! Welcome to " ++ args.company_name ++
        " customer service. I\x27m here to help with any questions\n                   or issues you may have. I can assist with: " ++
        String.intercalate ", " args.service_types ++
        ".\n                   What can I help you with today?")
      |>.withVariableExtraction [
        { varName := "customer_email", varType := "string",
          varDescription := "Customer email address", required := some true },
        { varName := "issue_category", varType := "string",
          varDescription := "Type of issue or question",
          required := some true },
        { varName := "urgency_level", varType := "string",
          varDescription := "How urgent is this issue",
          required := some false },
        { varName := "previous_ticket", varType := "string",
          varDescription := "Any previous support ticket numbers",
          required := some false }]
      |>.withAIFeatures { sentiment_analysis := some true,
                          emotion_detection := some true,
                          language_detection := some true,
                          conversation_insights := some true })
  let (b, nb) := b.createNode "Intelligent Issue Classification"
  let (b, classificationId) := b.addNode
    ((nb.withPrompt "Let me analyze your issue and route you to the right specialist who can provide the best assistance.")
      |>.withCustomTools [
        { name := "issue_classifier",
          description := "Classify customer service issues",
          input_schema :=
            { schemaType := "object",
              properties := [("issue_description", "string"),
                             ("category", "string"),
                             ("urgency", "string")],
              required := ["issue_description"] },
          speech := some "Let me analyze your issue...",
          response_data := [
            { name := "issue_type", data := "$.classification" },
            { name := "recommended_specialist", data := "$.specialist" },
            { name := "estimated_resolution_time", data := "$.eta" }] }])
  let rsp := csSpecialistLoop args.resolution_webhook
    args.service_types b (fun _ => none)
  let b := rsp.1
  let specialistNodes := rsp.2
  let (b, nb) := b.createNode "Knowledge Base Search"
  let (b, knowledgeBaseId) := b.addNode
    ((nb.asKnowledgeBase (jsOr args.knowledge_base_content
        "Comprehensive customer service knowledge base with solutions, procedures, and troubleshooting guides."))
      |>.withPrompt "Let me search our knowledge base for the most relevant information to help resolve your issue.")
  let (b, nb) := b.createNode "Customer Satisfaction Survey"
  let (b, satisfactionId) := b.addNode
    ((nb.withPrompt ("Thank you for contacting " ++ args.company_name ++
        "! Before we finish,\n                   I\x27d love to get your feedback on the service you received today.\n                   " ++
        (if args.satisfaction_tracking then
          "This helps us improve our service quality." else "")))
      |>.withVariableExtraction [
        { varName := "satisfaction_rating", varType := "integer",
          varDescription := "Satisfaction rating 1-10",
          required := some true },
        { varName := "service_feedback", varType := "string",
          varDescription := "Additional feedback or comments",
          required := some false },
        { varName := "follow_up_needed", varType := "boolean",
          varDescription := "Does this need follow-up",
          required := some false }]
      |>.withAnalytics { track_completion := some true,
                         track_sentiment := some true,
                         custom_events := [
                           { event_name := "satisfaction_survey_completed",
                             trigger_condition := "node_completed",
                             data := [("rating",
                               "\x7b\x7bsatisfaction_rating\x7d\x7d")] }] })
  let (b, nb) := b.createNode "Service Complete"
  let (b, completionId) := b.addNode
    (nb.asEndCall
      |>.withPrompt ("Thank you for choosing " ++ args.company_name ++
        "! We\x27re always here to help.\n                   Your ticket number is \x7b\x7bticket_number\x7d\x7d for reference. Have a great day!"))
  let b := b.addEdge serviceHubId classificationId
    "issue information collected"
    (some ("Classification Route", "Route to issue analysis"))
  let b := csClassificationEdgeLoop classificationId specialistNodes
    args.service_types b
  let b := b.addEdge classificationId knowledgeBaseId
    "needs knowledge base search"
    (some ("Knowledge Base Route",
           "Route to knowledge base for information"))
  let b := csResolutionEdgeLoop satisfactionId specialistNodes
    args.service_types b
  let b := b.addEdge knowledgeBaseId satisfactionId "information provided"
    (some ("Information Complete", "Knowledge base information provided"))
  let b := b.addEdge satisfactionId completionId
    "satisfaction survey complete"
    (some ("Survey Complete", "Customer satisfaction survey completed"))
  b.build

/-- The arguments of `buildIntelligentAppointmentSystem` (after the handler
has split `service_types` into an array). -/
structure AppointmentArgs where
  business_name : String
  service_types : List String
  business_hours : String
  booking_webhook : Option String := none
  confirmation_method : String := "both"
  automated_reminders : Bool := true
  rescheduling_allowed : Bool := true

/-- `buildIntelligentAppointmentSystem`: the fixed-topology appointment
booking template. -/
def buildIntelligentAppointmentSystem (args : AppointmentArgs) : Graph :=
  let b : ModularPathwayBuilder := {}
  let (b, nb) := b.createNode "Appointment Rescheduling"
  let (b, _rescheduleNodeId) := b.addNode
    ((nb.asGlobal "reschedule"
        (some { trigger_keywords := ["reschedule", "change appointment",
                                     "different time", "cancel",
                                     "move appointment"],
                priority_level := some 8,
                interrupt_any_node := some true,
                return_to_previous := some true }))
      |>.withPrompt ("I can help you reschedule your appointment. Let me check availability for a better time.\n                   " ++
        (if args.rescheduling_allowed then
          "Rescheduling is available up to 24 hours before your appointment."
        else ""))
      |>.withVariableExtraction [
        { varName := "current_appointment_id", varType := "string",
          varDescription := "Current appointment reference",
          required := some false },
        { varName := "preferred_new_time", varType := "string",
          varDescription := "Preferred new appointment time",
          required := some true },
        { varName := "reason_for_change", varType := "string",
          varDescription := "Reason for rescheduling",
          required := some false }])
  let (b, nb) := b.createNode (args.business_name ++ " Appointment Booking")
  let (b, bookingHubId) := b.addNode
    (nb.asStart
      |>.withPrompt ("Welcome to " ++ args.business_name ++
        "! I\x27m here to help you schedule an appointment.\n                   We offer: " ++
        String.intercalate ", " args.service_types ++
        ".\n                   Our hours are " ++ args.business_hours ++
        ".\n                   What type of service are you looking for?")
      |>.withVariableExtraction [
        { varName := "customer_name", varType := "string",
          varDescription := "Customer full name", required := some true },
        { varName := "customer_phone", varType := "string",
          varDescription := "Customer phone number", required := some true },
        { varName := "customer_email", varType := "string",
          varDescription := "Customer email address", required := some true },
        { varName := "service_requested", varType := "string",
          varDescription := "Type of service needed", required := some true },
        { varName := "preferred_date", varType := "string",
          varDescription := "Preferred appointment date",
          required := some true },
        { varName := "preferred_time", varType := "string",
          varDescription := "Preferred appointment time",
          required := some true }]
      |>.withAIFeatures { sentiment_analysis := some true,
                          language_detection := some true,
                          conversation_insights := some true })
  let (b, nb) := b.createNode "Service Selection & Information"
  let (b, serviceSelectionId) := b.addNode
    ((nb.withPrompt ("Perfect! Let me provide you with detailed information about our " ++
        String.intercalate " and " args.service_types ++
        " services,\n                   including duration, pricing, and what to expect during your appointment."))
      |>.withCustomTools [
        { name := "service_pricing_calculator",
          description := "Calculate service pricing and duration",
          input_schema :=
            { schemaType := "object",
              properties := [("service_type", "string"),
                             ("customer_type", "string"),
                             ("add_ons", "array")],
              required := ["service_type"] },
          speech := some "Let me calculate the pricing and duration for your service...",
          response_data := [
            { name := "service_price", data := "$.price" },
            { name := "service_duration", data := "$.duration" },
            { name := "available_add_ons", data := "$.add_ons" }] }])
  let (b, nb) := b.createNode "Real-Time Availability Checker"
  let (b, availabilityId) := b.addNode
    ((nb.withPrompt "Let me check our real-time availability for your preferred date and time...")
      |>.withDynamicData [
        { url := jsOr args.booking_webhook
            "https://api.calendar.com/availability",
          method := some "GET",
          query := [("date", "\x7b\x7bpreferred_date\x7d\x7d"),
                    ("service_type", "\x7b\x7bservice_requested\x7d\x7d"),
                    ("duration", "\x7b\x7bservice_duration\x7d\x7d")],
          response_data := [
            { name := "available_slots", data := "$.available_times" },
            { name := "next_available", data := "$.next_available_date" }],
          error_handling := some
            { on_error := "continue",
              fallback_response := some "Let me manually check our availability for you." } }]
      |>.withCondition "Service selected and preferred time provided")
  let (b, nb) := b.createNode "Appointment Confirmation"
  let (b, confirmationId) := b.addNode
    ((nb.withPrompt ("Excellent! I have an available slot for " ++
        (args.service_types.head?.getD "undefined") ++
        " on \x7b\x7bpreferred_date\x7d\x7d at \x7b\x7bpreferred_time\x7d\x7d.\n                   The service will take approximately \x7b\x7bservice_duration\x7d\x7d and costs \x7b\x7bservice_price\x7d\x7d.\n                   Shall I confirm this appointment for you?"))
      |>.withVariableExtraction [
        { varName := "confirmation_agreed", varType := "boolean",
          varDescription := "Customer confirms appointment",
          required := some true },
        { varName := "special_requests", varType := "string",
          varDescription := "Any special requests or notes",
          required := some false },
        { varName := "preferred_reminder_method", varType := "string",
          varDescription := "How to send reminders",
          required := some false }]
      |>.withCondition "Available slot found")
  let (b, nb) := b.createNode "Booking Completion & Confirmation"
  let (b, bookingCompleteId) := b.addNode
    ((nb.withPrompt ("Perfect! Your appointment is confirmed for \x7b\x7bpreferred_date\x7d\x7d at \x7b\x7bpreferred_time\x7d\x7d.\n                   " ++
        (if args.confirmation_method = "email" then
          "You\x27ll receive an email confirmation"
        else if args.confirmation_method = "sms" then
          "You\x27ll receive an SMS confirmation"
        else "You\x27ll receive both email and SMS confirmations") ++
        ".\n                   " ++
        (if args.automated_reminders then
          "We\x27ll also send you reminders before your appointment."
        else "")))
      |>.withDynamicData [
        { url := jsOr args.booking_webhook "https://api.booking.com/confirm",
          method := some "POST",
          body := [("customer_name", "\x7b\x7bcustomer_name\x7d\x7d"),
                   ("customer_email", "\x7b\x7bcustomer_email\x7d\x7d"),
                   ("customer_phone", "\x7b\x7bcustomer_phone\x7d\x7d"),
                   ("service_type", "\x7b\x7bservice_requested\x7d\x7d"),
                   ("appointment_date", "\x7b\x7bpreferred_date\x7d\x7d"),
                   ("appointment_time", "\x7b\x7bpreferred_time\x7d\x7d"),
                   ("price", "\x7b\x7bservice_price\x7d\x7d"),
                   ("duration", "\x7b\x7bservice_duration\x7d\x7d")],
          response_data := [
            { name := "appointment_id", data := "$.booking_id" },
            { name := "confirmation_number",
              data := "$.confirmation_code" }] }]
      |>.withAnalytics { track_completion := some true,
                         custom_events := [
                           { event_name := "appointment_booked",
                             trigger_condition := "node_completed",
                             data := [("service",
                                 "\x7b\x7bservice_requested\x7d\x7d"),
                               ("date",
                                 "\x7b\x7bpreferred_date\x7d\x7d")] }] })
  let (b, nb) := b.createNode "Alternative Time Options"
  let (b, alternativeTimesId) := b.addNode
    ((nb.withPrompt "I don\x27t have availability at your preferred time, but I have these alternative options:\n                   \x7b\x7bavailable_slots\x7d\x7d. The next available appointment is \x7b\x7bnext_available\x7d\x7d.\n                   Which of these alternatives works better for you?")
      |>.withVariableExtraction [
        { varName := "selected_alternative", varType := "string",
          varDescription := "Chosen alternative time",
          required := some true }]
      |>.withCondition "Preferred time not available")
  let (b, nb) := b.createNode "Appointment Booking Complete"
  let (b, completionId) := b.addNode
    (nb.asEndCall
      |>.withPrompt ("Thank you for booking with " ++ args.business_name ++
        "! Your appointment confirmation number is \x7b\x7bconfirmation_number\x7d\x7d.\n                   We look forward to seeing you on \x7b\x7bpreferred_date\x7d\x7d. Have a great day!"))
  let b := b.addEdge bookingHubId serviceSelectionId
    "service interest expressed"
    (some ("Service Selection", "Customer interested in specific service"))
  let b := b.addEdge serviceSelectionId availabilityId "service selected"
    (some ("Check Availability", "Service chosen, checking availability"))
  let b := b.addEdge availabilityId confirmationId "preferred time available"
    (some ("Time Available", "Preferred slot is available"))
  let b := b.addEdge availabilityId alternativeTimesId
    "preferred time not available"
    (some ("No Availability",
           "Preferred time unavailable, offering alternatives"))
  let b := b.addEdge alternativeTimesId confirmationId
    "alternative time selected"
    (some ("Alternative Chosen", "Customer selected alternative time"))
  let b := b.addEdge confirmationId bookingCompleteId "appointment confirmed"
    (some ("Confirmation Complete", "Customer confirmed the appointment"))
  let b := b.addEdge bookingCompleteId completionId
    "booking process complete"
    (some ("Process Complete", "Appointment successfully booked"))
  b.build

/-- The `advanced_features` object assembled by the custom-workflow
handler. -/
structure AdvancedFeatures where
  variable_extraction : Bool := true
  conditional_logic : Bool := true
  global_fallbacks : Bool := true
  fine_tuning_examples : Bool := false

/-- The arguments of `buildCustomWorkflowPathway` (`required_data_points`
and `decision_points` may be absent in raw calls, hence `Option`). -/
structure WorkflowArgs where
  name : String
  workflow_description : String
  required_data_points : Option (List String) := none
  decision_points : Option (List String) := none
  advanced_features : AdvancedFeatures := {}

/-- The decision-point node loop, threading the `decisionNodes` record. -/
def cwDecisionLoop :
    List String → ModularPathwayBuilder → (String → Option String) →
    ModularPathwayBuilder × (String → Option String)
  | [], b, decisionNodes => (b, decisionNodes)
  | decisionPoint :: rest, b, decisionNodes =>
    let (b, nb) := b.createNode ("Decision Point: " ++ decisionPoint)
    let (b, decisionId) := b.addNode
      ((nb.withPrompt ("Based on your information, I need to make a decision about: " ++
          decisionPoint ++
          "\n                       Let me analyze your requirements to determine the best path forward."))
        |>.withCondition (decisionPoint ++ " decision required")
        |>.withCustomTools [
          { name := "decision_engine",
            description := "Make decision for " ++ decisionPoint,
            input_schema :=
              { schemaType := "object",
                properties := [("decision_criteria", "string"),
                               ("customer_data", "object")],
                required := ["decision_criteria"] },
            speech := some ("Let me analyze the best approach for " ++
              decisionPoint ++ "..."),
            response_data := [
              { name := "decision_result", data := "$.decision" },
              { name := "confidence_score", data := "$.confidence" }] }])
    cwDecisionLoop rest b
      (fun k => if k = decisionPoint then some decisionId
                else decisionNodes k)

/-- The decision-chain edge loop of `buildCustomWorkflowPathway`
(`currentNodeId` starts at the entry node; the last decision connects to
the processor). -/
def cwChainLoop (decisionNodes : String → Option String)
    (processorId : String) :
    Nat → String → List String → ModularPathwayBuilder →
    ModularPathwayBuilder
  | _, _, [], b => b
  | i, currentNodeId, decisionPoint :: rest, b =>
    let target := (decisionNodes decisionPoint).getD "undefined"
    let nextNodeId := match rest with
      | [] => processorId
      | dp2 :: _ => (decisionNodes dp2).getD "undefined"
    let b := b.addEdge currentNodeId target
      (decisionPoint ++ " decision needed")
      (some ("Decision " ++ natToString (i + 1),
             "Route to " ++ decisionPoint ++ " decision"))
    let b := b.addEdge target nextNodeId (decisionPoint ++ " decision made")
      (some ("Decision Complete", decisionPoint ++ " decision completed"))
    cwChainLoop decisionNodes processorId (i + 1) target rest b

/-- `buildCustomWorkflowPathway`: the generic custom workflow template. -/
def buildCustomWorkflowPathway (args : WorkflowArgs) : Graph :=
  let b : ModularPathwayBuilder := {}
  let (b, nb) := b.createNode "Workflow Help Assistant"
  let (b, _helpNodeId) := b.addNode
    ((nb.asGlobal "help"
        (some { trigger_keywords := ["help", "confused", "lost", "what next",
                                     "explain"],
                priority_level := some 10,
                interrupt_any_node := some true,
                return_to_previous := some true }))
      |>.withPrompt "I\x27m here to help guide you through our workflow. What specific assistance do you need?")
  let (b, nb) := b.createNode "Custom Workflow Entry"
  let (b, entryId) := b.addNode
    (nb.asStart
      |>.withPrompt args.workflow_description
      |>.withVariableExtraction
        (match args.required_data_points with
         | some points =>
           points.mapIdx (fun index point =>
             { varName := replaceWs point.lower, varType := "string",
               varDescription := point,
               required := some (decide (index < 3)) })
         | none => [
           { varName := "workflow_intent", varType := "string",
             varDescription := "Purpose of workflow interaction",
             required := some true },
           { varName := "customer_context", varType := "string",
             varDescription := "Customer context or background",
             required := some false }])
      |>.withAIFeatures
        { sentiment_analysis :=
            some (args.advanced_features.variable_extraction || true),
          conversation_insights :=
            some (args.advanced_features.conditional_logic || true) })
  let rdn := match args.decision_points with
    | some dps =>
      if 0 < dps.length then cwDecisionLoop dps b (fun _ => none)
      else (b, fun _ => none)
    | none => (b, fun _ => none)
  let b := rdn.1
  let decisionNodes := rdn.2
  let (b, nb) := b.createNode "Workflow Processor"
  let (b, processorId) := b.addNode
    ((nb.withPrompt "Now I\x27ll process your workflow based on the information and decisions made.")
      |>.withDynamicData [
        { url := "https://api.workflow.com/process",
          method := some "POST",
          body := [("workflow_type", args.name),
                   ("customer_data", "\x7b\x7bworkflow_intent\x7d\x7d"),
                   ("decisions", "\x7b\x7bdecision_results\x7d\x7d")],
          response_data := [
            { name := "workflow_result", data := "$.result" },
            { name := "next_steps", data := "$.next_steps" }],
          error_handling := some
            { on_error := "continue",
              fallback_response := some "I\x27ll process this manually for you." } }])
  let b :=
    if args.advanced_features.global_fallbacks then
      let (b, nb) := b.createNode "Workflow Fallback Handler"
      let (b, _fallbackNodeId) := b.addNode
        ((nb.asGlobal "fallback"
            (some { trigger_keywords := ["error", "problem", "not working",
                                         "issue"],
                    priority_level := some 5,
                    interrupt_any_node := some true,
                    return_to_previous := some false }))
          |>.withPrompt "I notice there might be an issue with the workflow. Let me help resolve this and get you back on track.")
      b
    else b
  let (b, nb) := b.createNode "Workflow Results"
  let (b, resultsId) := b.addNode
    ((nb.withPrompt "Great! Your workflow has been completed successfully.\n                   Results: \x7b\x7bworkflow_result\x7d\x7d\n                   Next steps: \x7b\x7bnext_steps\x7d\x7d")
      |>.withAnalytics { track_completion := some true,
                         track_duration := some true,
                         custom_events := [
                           { event_name := "custom_workflow_completed",
                             trigger_condition := "node_completed",
                             data := [("workflow_name", args.name)] }] })
  let (b, nb) := b.createNode "Workflow Complete"
  let (b, completionId) := b.addNode
    (nb.asEndCall
      |>.withPrompt "Thank you for using our custom workflow system! Your process has been completed successfully.")
  let b := match args.decision_points with
    | some dps =>
      if 0 < dps.length then
        cwChainLoop decisionNodes processorId 0 entryId dps b
      else
        b.addEdge entryId processorId "workflow ready for processing"
          (some ("Processing Route", "Route to workflow processor"))
    | none =>
      b.addEdge entryId processorId "workflow ready for processing"
        (some ("Processing Route", "Route to workflow processor"))
  let b := b.addEdge processorId resultsId "workflow processing complete"
    (some ("Results Ready", "Workflow processing completed"))
  let b := b.addEdge resultsId completionId "results delivered"
    (some ("Workflow Complete", "Results delivered to customer"))
  b.build

/-! ## Projection lemmas for the node builder -/

namespace ModularNodeBuilder

@[simp] theorem build_id (b : ModularNodeBuilder) : b.build.id = b.nodeId := rfl

@[simp] theorem build_nodeType (b : ModularNodeBuilder) :
    b.build.nodeType = b.nodeType := rfl

@[simp] theorem build_extractVars (b : ModularNodeBuilder) :
    b.build.data.extractVars = b.nodeData.extractVars := rfl

@[simp] theorem new_nodeId (id name : String) :
    (new id name).nodeId = id := rfl

@[simp] theorem asDefault_nodeId (b : ModularNodeBuilder) :
    b.asDefault.nodeId = b.nodeId := rfl

@[simp] theorem asDefault_nodeType (b : ModularNodeBuilder) :
    b.asDefault.nodeType = .default := rfl

@[simp] theorem asStart_nodeId (b : ModularNodeBuilder) :
    b.asStart.nodeId = b.nodeId := rfl

@[simp] theorem asStart_nodeType (b : ModularNodeBuilder) :
    b.asStart.nodeType = b.nodeType := rfl

@[simp] theorem asGlobal_nodeId (b : ModularNodeBuilder) (l : String)
    (cfg : Option GlobalConfig) : (b.asGlobal l cfg).nodeId = b.nodeId := rfl

@[simp] theorem asGlobal_nodeType (b : ModularNodeBuilder) (l : String)
    (cfg : Option GlobalConfig) :
    (b.asGlobal l cfg).nodeType = b.nodeType := rfl

@[simp] theorem asWebhook_nodeId (b : ModularNodeBuilder) (u m : String) :
    (b.asWebhook u m).nodeId = b.nodeId := rfl

@[simp] theorem asKnowledgeBase_nodeId (b : ModularNodeBuilder) (k : String) :
    (b.asKnowledgeBase k).nodeId = b.nodeId := rfl

@[simp] theorem asKnowledgeBase_nodeType (b : ModularNodeBuilder)
    (k : String) : (b.asKnowledgeBase k).nodeType = .knowledgeBase := rfl

@[simp] theorem asTransfer_nodeId (b : ModularNodeBuilder) (p : String) :
    (b.asTransfer p).nodeId = b.nodeId := rfl

@[simp] theorem asTransfer_nodeType (b : ModularNodeBuilder) (p : String) :
    (b.asTransfer p).nodeType = .transferNode := rfl

@[simp] theorem asEndCall_nodeId (b : ModularNodeBuilder) :
    b.asEndCall.nodeId = b.nodeId := rfl

@[simp] theorem asEndCall_nodeType (b : ModularNodeBuilder) :
    b.asEndCall.nodeType = .endCall := rfl

@[simp] theorem withPrompt_nodeId (b : ModularNodeBuilder) (p : String) :
    (b.withPrompt p).nodeId = b.nodeId := rfl

@[simp] theorem withPrompt_nodeType (b : ModularNodeBuilder) (p : String) :
    (b.withPrompt p).nodeType = b.nodeType := rfl

@[simp] theorem withCondition_nodeId (b : ModularNodeBuilder) (c : String) :
    (b.withCondition c).nodeId = b.nodeId := rfl

@[simp] theorem withCondition_nodeType (b : ModularNodeBuilder)
    (c : String) : (b.withCondition c).nodeType = b.nodeType := rfl

@[simp] theorem withVariableExtraction_nodeId (b : ModularNodeBuilder)
    (v : List ExtractVar) : (b.withVariableExtraction v).nodeId = b.nodeId :=
  rfl

@[simp] theorem withVariableExtraction_nodeType (b : ModularNodeBuilder)
    (v : List ExtractVar) :
    (b.withVariableExtraction v).nodeType = b.nodeType := rfl

@[simp] theorem withVariableExtraction_extractVars (b : ModularNodeBuilder)
    (v : List ExtractVar) :
    (b.withVariableExtraction v).nodeData.extractVars = some v := rfl

@[simp] theorem withAIFeatures_nodeId (b : ModularNodeBuilder)
    (f : AIFeatures) : (b.withAIFeatures f).nodeId = b.nodeId := rfl

@[simp] theorem withAIFeatures_nodeType (b : ModularNodeBuilder)
    (f : AIFeatures) : (b.withAIFeatures f).nodeType = b.nodeType := rfl

@[simp] theorem withAIFeatures_extractVars (b : ModularNodeBuilder)
    (f : AIFeatures) :
    (b.withAIFeatures f).nodeData.extractVars = b.nodeData.extractVars := rfl

@[simp] theorem withFlowControl_nodeId (b : ModularNodeBuilder)
    (f : FlowControl) : (b.withFlowControl f).nodeId = b.nodeId := rfl

@[simp] theorem withFlowControl_nodeType (b : ModularNodeBuilder)
    (f : FlowControl) : (b.withFlowControl f).nodeType = b.nodeType := rfl

@[simp] theorem withFlowControl_extractVars (b : ModularNodeBuilder)
    (f : FlowControl) :
    (b.withFlowControl f).nodeData.extractVars = b.nodeData.extractVars := rfl

@[simp] theorem withAnalytics_nodeId (b : ModularNodeBuilder)
    (a : Analytics) : (b.withAnalytics a).nodeId = b.nodeId := rfl

@[simp] theorem withAnalytics_nodeType (b : ModularNodeBuilder)
    (a : Analytics) : (b.withAnalytics a).nodeType = b.nodeType := rfl

@[simp] theorem withAnalytics_extractVars (b : ModularNodeBuilder)
    (a : Analytics) :
    (b.withAnalytics a).nodeData.extractVars = b.nodeData.extractVars := rfl

@[simp] theorem withDynamicData_nodeId (b : ModularNodeBuilder)
    (d : List DynamicDataSpec) : (b.withDynamicData d).nodeId = b.nodeId :=
  rfl

@[simp] theorem withDynamicData_nodeType (b : ModularNodeBuilder)
    (d : List DynamicDataSpec) :
    (b.withDynamicData d).nodeType = b.nodeType := rfl

@[simp] theorem withDynamicData_extractVars (b : ModularNodeBuilder)
    (d : List DynamicDataSpec) :
    (b.withDynamicData d).nodeData.extractVars = b.nodeData.extractVars :=
  rfl

@[simp] theorem withCustomTools_nodeId (b : ModularNodeBuilder)
    (t : List CustomTool) : (b.withCustomTools t).nodeId = b.nodeId := rfl

@[simp] theorem withCustomTools_nodeType (b : ModularNodeBuilder)
    (t : List CustomTool) : (b.withCustomTools t).nodeType = b.nodeType :=
  rfl

@[simp] theorem withCustomTools_extractVars (b : ModularNodeBuilder)
    (t : List CustomTool) :
    (b.withCustomTools t).nodeData.extractVars = b.nodeData.extractVars :=
  rfl

@[simp] theorem withFineTuning_nodeId (b : ModularNodeBuilder)
    (pe : Option (List PathwayExample)) (ce : Option (List ConditionExample))
    (de : Option (List DialogueExample)) :
    (b.withFineTuning pe ce de).nodeId = b.nodeId := by
  unfold withFineTuning
  split <;> rfl

@[simp] theorem withFineTuning_nodeType (b : ModularNodeBuilder)
    (pe : Option (List PathwayExample)) (ce : Option (List ConditionExample))
    (de : Option (List DialogueExample)) :
    (b.withFineTuning pe ce de).nodeType = b.nodeType := by
  unfold withFineTuning
  split <;> rfl

@[simp] theorem withFineTuning_extractVars (b : ModularNodeBuilder)
    (pe : Option (List PathwayExample)) (ce : Option (List ConditionExample))
    (de : Option (List DialogueExample)) :
    (b.withFineTuning pe ce de).nodeData.extractVars =
      b.nodeData.extractVars := by
  unfold withFineTuning
  split
  · cases pe <;> cases ce <;> cases de <;> rfl
  · rfl

end ModularNodeBuilder

namespace DomainSpecificBranchingBuilder

theorem domainConceptNode_id (domain : String) (c : DomainConcept) (n : Nat) :
    (domainConceptNode domain c n).id =
      mkId (c.conceptType ++ "_specialist") n := by
  unfold domainConceptNode
  by_cases h : domain = "health insurance" <;> simp [h]

theorem domainConceptNode_nodeType (domain : String) (c : DomainConcept)
    (n : Nat) : (domainConceptNode domain c n).nodeType = .default := by
  unfold domainConceptNode
  by_cases h : domain = "health insurance" <;> simp [h]

theorem domainConceptNode_extractVars (domain : String) (c : DomainConcept)
    (n : Nat) :
    (domainConceptNode domain c n).data.extractVars =
      some (getDomainVariablesForConcept c.conceptType domain) := by
  unfold domainConceptNode
  by_cases h : domain = "health insurance" <;> simp [h]

end DomainSpecificBranchingBuilder

/-! ## Normal forms of the assembler loops -/

namespace DomainSpecificBranchingBuilder

/-- Generic node-segment generator: one node per payload, each at the next
counter value. -/
def nodesFromAux {α : Type} (f : α → Nat → PathwayNode) (n : Nat) :
    List α → List PathwayNode
  | [] => []
  | x :: xs => f x (n + 1) :: nodesFromAux f (n + 1) xs

/-- Generic hub-edge-segment generator: one edge per payload, tracking node
and edge counters in lockstep. -/
def hubEdgesAux {α : Type} (g : α → Nat → Nat → PathwayEdge) (n ec : Nat) :
    List α → List PathwayEdge
  | [] => []
  | x :: xs => g x (n + 1) (ec + 1) :: hubEdgesAux g (n + 1) (ec + 1) xs

/-- The `conceptNodeIds` pairs produced by the concept loop. -/
def conceptPairsFrom (n : Nat) : List DomainConcept → List (String × String)
  | [] => []
  | c :: cs =>
    (c.conceptType, mkId (c.conceptType ++ "_specialist") (n + 1)) ::
      conceptPairsFrom (n + 1) cs

@[simp] theorem nodesFromAux_length {α : Type} (f : α → Nat → PathwayNode)
    (n : Nat) (l : List α) : (nodesFromAux f n l).length = l.length := by
  induction l generalizing n with
  | nil => rfl
  | cons x xs ih => simp [nodesFromAux, ih]

@[simp] theorem conceptPairsFrom_length (n : Nat) (l : List DomainConcept) :
    (conceptPairsFrom n l).length = l.length := by
  induction l generalizing n with
  | nil => rfl
  | cons x xs ih => simp [conceptPairsFrom, ih]

theorem conceptLoop_eq (domain hubId : String) (cs : List DomainConcept)
    (st : DSBState) :
    conceptLoop domain hubId cs st =
    ({ nodes := st.nodes ++ nodesFromAux (domainConceptNode domain)
         st.nodeCount cs,
       edges := st.edges ++ hubEdgesAux (fun c n ec =>
         conditionalEdge domain hubId
           (mkId (c.conceptType ++ "_specialist") n) c.condition
           c.description ec) st.nodeCount st.edgeCount cs,
       nodeCount := st.nodeCount + cs.length,
       edgeCount := st.edgeCount + cs.length },
     conceptPairsFrom st.nodeCount cs) := by
  induction cs generalizing st with
  | nil => simp [conceptLoop, nodesFromAux, hubEdgesAux, conceptPairsFrom]
  | cons c rest ih =>
    simp only [conceptLoop, createDomainConceptNode, createConditionalEdge,
      nodesFromAux, hubEdgesAux, conceptPairsFrom, ih, List.length_cons]
    refine Prod.ext ?_ rfl
    simp [List.append_assoc]
    omega

theorem webhookLoop_eq (domain hubId : String)
    (ws : List WebhookIntegration) (st : DSBState) :
    webhookLoop domain hubId ws st =
    { nodes := st.nodes ++ nodesFromAux (domainWebhookNode domain)
        st.nodeCount ws,
      edges := st.edges ++ hubEdgesAux (fun w n ec =>
        conditionalEdge domain hubId ((domainWebhookNode domain w n).id)
          ("needs " ++ w.name.lower)
          ("Route to " ++ w.name ++ " for domain-specific processing") ec)
        st.nodeCount st.edgeCount ws,
      nodeCount := st.nodeCount + ws.length,
      edgeCount := st.edgeCount + ws.length } := by
  induction ws generalizing st with
  | nil => simp [webhookLoop, nodesFromAux, hubEdgesAux]
  | cons w rest ih =>
    simp only [webhookLoop, createDomainWebhookNode, createConditionalEdge,
      nodesFromAux, hubEdgesAux, ih, List.length_cons]
    simp [List.append_assoc]
    omega

theorem kbLoop_eq (domain hubId : String) (ks : List KnowledgeBase)
    (st : DSBState) :
    kbLoop domain hubId ks st =
    { nodes := st.nodes ++ nodesFromAux (domainKnowledgeBaseNode domain)
        st.nodeCount ks,
      edges := st.edges ++ hubEdgesAux (fun kb n ec =>
        conditionalEdge domain hubId ((domainKnowledgeBaseNode domain kb n).id)
          ("asks about " ++
            jsOr (kb.trigger_phrases.map (String.intercalate " or "))
              ("questions about " ++ kb.name.lower))
          ("Provide specialized information from " ++ kb.name) ec)
        st.nodeCount st.edgeCount ks,
      nodeCount := st.nodeCount + ks.length,
      edgeCount := st.edgeCount + ks.length } := by
  induction ks generalizing st with
  | nil => simp [kbLoop, nodesFromAux, hubEdgesAux]
  | cons k rest ih =>
    simp only [kbLoop, createDomainKnowledgeBaseNode, createConditionalEdge,
      nodesFromAux, hubEdgesAux, ih, List.length_cons]
    simp [List.append_assoc]
    omega

theorem transferLoop_eq (domain hubId : String) (ts : List TransferTarget)
    (st : DSBState) :
    transferLoop domain hubId ts st =
    { nodes := st.nodes ++ nodesFromAux (domainTransferNode domain)
        st.nodeCount ts,
      edges := st.edges ++ hubEdgesAux (fun t n ec =>
        conditionalEdge domain hubId ((domainTransferNode domain t n).id)
          (jsOr (t.conditions.map (String.intercalate " or "))
            ("needs " ++ t.name.lower))
          ("Transfer to " ++ t.name ++ " for specialized assistance") ec)
        st.nodeCount st.edgeCount ts,
      nodeCount := st.nodeCount + ts.length,
      edgeCount := st.edgeCount + ts.length } := by
  induction ts generalizing st with
  | nil => simp [transferLoop, nodesFromAux, hubEdgesAux]
  | cons t rest ih =>
    simp only [transferLoop, createDomainTransferNode, createConditionalEdge,
      nodesFromAux, hubEdgesAux, ih, List.length_cons]
    simp [List.append_assoc]
    omega

/-- The edge segment appended by `conceptResolutionLoop`. -/
def conceptResEdges (domain resolutionId : String) (ec : Nat) :
    List (String × String) → List PathwayEdge
  | [] => []
  | (conceptType, nodeId) :: rest =>
    conditionalEdge domain nodeId resolutionId
      (conceptType ++ " assistance complete")
      ("Complete " ++ conceptType ++ " assistance and assess satisfaction")
      (ec + 1) :: conceptResEdges domain resolutionId (ec + 1) rest

theorem conceptResolutionLoop_eq (domain resolutionId : String)
    (pairs : List (String × String)) (st : DSBState) :
    conceptResolutionLoop domain resolutionId pairs st =
    { st with
      edges := st.edges ++ conceptResEdges domain resolutionId st.edgeCount
        pairs,
      edgeCount := st.edgeCount + pairs.length } := by
  induction pairs generalizing st with
  | nil => simp [conceptResolutionLoop, conceptResEdges]
  | cons p rest ih =>
    obtain ⟨conceptType, nodeId⟩ := p
    simp only [conceptResolutionLoop, createConditionalEdge,
      conceptResEdges, ih, List.length_cons]
    simp [List.append_assoc]
    omega

/-- The edge segment appended by `otherResolutionLoop`. -/
def otherResEdges (domain resolutionId : String) (ec : Nat) :
    List String → List PathwayEdge
  | [] => []
  | nodeId :: rest =>
    conditionalEdge domain nodeId resolutionId
      "service completed successfully"
      "Complete service and assess customer satisfaction" (ec + 1) ::
      otherResEdges domain resolutionId (ec + 1) rest

theorem otherResolutionLoop_eq (domain resolutionId : String)
    (ids : List String) (st : DSBState) :
    otherResolutionLoop domain resolutionId ids st =
    { st with
      edges := st.edges ++ otherResEdges domain resolutionId st.edgeCount ids,
      edgeCount := st.edgeCount + ids.length } := by
  induction ids generalizing st with
  | nil => simp [otherResolutionLoop, otherResEdges]
  | cons i rest ih =>
    simp only [otherResolutionLoop, createConditionalEdge, otherResEdges,
      ih, List.length_cons]
    simp [List.append_assoc]
    omega

@[simp] theorem domainSpecificHubNode_id (domain purpose : String)
    (cs : List DomainConcept) (n : Nat) :
    (domainSpecificHubNode domain purpose cs n).id =
      mkId (replaceWs domain ++ "_hub") n := rfl

@[simp] theorem domainWebhookNode_id (domain : String)
    (w : WebhookIntegration) (n : Nat) :
    (domainWebhookNode domain w n).id =
      mkId (replaceWs domain ++ "_" ++ (replaceWs w.name).lower) n := rfl

@[simp] theorem domainKnowledgeBaseNode_id (domain : String)
    (kb : KnowledgeBase) (n : Nat) :
    (domainKnowledgeBaseNode domain kb n).id =
      mkId (replaceWs domain ++ "_" ++ (replaceWs kb.name).lower) n := rfl

@[simp] theorem domainTransferNode_id (domain : String) (t : TransferTarget)
    (n : Nat) :
    (domainTransferNode domain t n).id =
      mkId (replaceWs domain ++ "_" ++ (replaceWs t.name).lower) n := rfl

@[simp] theorem domainResolutionNode_id (domain : String) (n : Nat) :
    (domainResolutionNode domain n).id =
      mkId (replaceWs domain ++ "_resolution") n := rfl

@[simp] theorem domainCompletionNode_id (domain : String) (n : Nat) :
    (domainCompletionNode domain n).id =
      mkId (replaceWs domain ++ "_completion") n := rfl

theorem createDomainSpecificHub_eq (domain purpose : String)
    (cs : List DomainConcept) (st : DSBState) :
    createDomainSpecificHub domain purpose cs st =
    ({ st with nodeCount := st.nodeCount + 1,
               nodes := st.nodes ++
                 [domainSpecificHubNode domain purpose cs
                   (st.nodeCount + 1)] },
     mkId (replaceWs domain ++ "_hub") (st.nodeCount + 1)) := rfl

theorem createDomainResolutionNode_eq (domain : String) (st : DSBState) :
    createDomainResolutionNode domain st =
    ({ st with nodeCount := st.nodeCount + 1,
               nodes := st.nodes ++
                 [domainResolutionNode domain (st.nodeCount + 1)] },
     mkId (replaceWs domain ++ "_resolution") (st.nodeCount + 1)) := rfl

theorem createDomainCompletionNode_eq (domain : String) (st : DSBState) :
    createDomainCompletionNode domain st =
    ({ st with nodeCount := st.nodeCount + 1,
               nodes := st.nodes ++
                 [domainCompletionNode domain (st.nodeCount + 1)] },
     mkId (replaceWs domain ++ "_completion") (st.nodeCount + 1)) := rfl

/-- The fully wired node list of the assembler as an explicit concatenation
of segments with their counter ranges. -/
def assembledNodes (domain purpose : String) (cs : List DomainConcept)
    (args : BuildArgs) : List PathwayNode :=
  domainSpecificHubNode domain purpose cs 1 ::
    (nodesFromAux (domainConceptNode domain) 1 cs ++
     nodesFromAux (domainWebhookNode domain) (1 + cs.length)
       args.webhook_integrations ++
     nodesFromAux (domainKnowledgeBaseNode domain)
       (1 + cs.length + args.webhook_integrations.length)
       args.knowledge_bases ++
     nodesFromAux (domainTransferNode domain)
       (1 + cs.length + args.webhook_integrations.length +
         args.knowledge_bases.length) args.transfer_numbers ++
     [domainResolutionNode domain
        (cs.length + args.webhook_integrations.length +
          args.knowledge_bases.length + args.transfer_numbers.length + 2),
      domainCompletionNode domain
        (cs.length + args.webhook_integrations.length +
          args.knowledge_bases.length + args.transfer_numbers.length + 3)])

/-- The fully wired edge list of the assembler as an explicit concatenation
of segments with their counter ranges. -/
def assembledEdges (domain purpose : String) (cs : List DomainConcept)
    (args : BuildArgs) : List PathwayEdge :=
  let k := cs.length
  let m := args.webhook_integrations.length
  let kn := args.knowledge_bases.length
  let p := args.transfer_numbers.length
  let hubId := mkId (replaceWs domain ++ "_hub") 1
  let resolutionId := mkId (replaceWs domain ++ "_resolution")
    (k + m + kn + p + 2)
  let completionId := mkId (replaceWs domain ++ "_completion")
    (k + m + kn + p + 3)
  let conceptPairs := conceptPairsFrom 1 cs
  let otherIds :=
    (((assembledNodes domain purpose cs args).filter (fun node =>
        node.id ≠ hubId ∧ node.id ≠ resolutionId ∧
        node.id ≠ completionId)).filter (fun node =>
          ¬ (conceptPairs.map Prod.fst).contains node.id)).map (·.id)
  let baseEdges :=
    hubEdgesAux (fun c n ec =>
      conditionalEdge domain hubId (mkId (c.conceptType ++ "_specialist") n)
        c.condition c.description ec) 1 0 cs ++
    hubEdgesAux (fun w n ec =>
      conditionalEdge domain hubId ((domainWebhookNode domain w n).id)
        ("needs " ++ w.name.lower)
        ("Route to " ++ w.name ++ " for domain-specific processing") ec)
      (1 + k) k args.webhook_integrations ++
    hubEdgesAux (fun kb n ec =>
      conditionalEdge domain hubId ((domainKnowledgeBaseNode domain kb n).id)
        ("asks about " ++
          jsOr (kb.trigger_phrases.map (String.intercalate " or "))
            ("questions about " ++ kb.name.lower))
        ("Provide specialized information from " ++ kb.name) ec)
      (1 + k + m) (k + m) args.knowledge_bases ++
    hubEdgesAux (fun t n ec =>
      conditionalEdge domain hubId ((domainTransferNode domain t n).id)
        (jsOr (t.conditions.map (String.intercalate " or "))
          ("needs " ++ t.name.lower))
        ("Transfer to " ++ t.name ++ " for specialized assistance") ec)
      (1 + k + m + kn) (k + m + kn) args.transfer_numbers ++
    conceptResEdges domain resolutionId (k + m + kn + p) conceptPairs
  let ec9 := k + m + kn + p + k
  if 0 < m ∨ 0 < kn ∨ 0 < p then
    baseEdges ++ otherResEdges domain resolutionId ec9 otherIds ++
    [conditionalEdge domain resolutionId completionId
       ("satisfied with " ++ domain ++ " service")
       ("Complete " ++ domain ++ " interaction")
       (ec9 + otherIds.length + 1),
     conditionalEdge domain resolutionId hubId
       ("additional " ++ domain ++ " needs")
       ("Return to " ++ domain ++ " options")
       (ec9 + otherIds.length + 2)]
  else
    baseEdges ++
    [conditionalEdge domain resolutionId completionId
       ("satisfied with " ++ domain ++ " service")
       ("Complete " ++ domain ++ " interaction") (ec9 + 1),
     conditionalEdge domain resolutionId hubId
       ("additional " ++ domain ++ " needs")
       ("Return to " ++ domain ++ " options") (ec9 + 2)]

theorem buildFromDescription_eq (d : String) (args : BuildArgs) :
    buildFromDescription d args =
    { nodes := assembledNodes (extractPrimaryDomain d args.name)
        (extractPrimaryPurpose d)
        (extractDomainSpecificConcepts d (extractPrimaryDomain d args.name))
        args,
      edges := assembledEdges (extractPrimaryDomain d args.name)
        (extractPrimaryPurpose d)
        (extractDomainSpecificConcepts d (extractPrimaryDomain d args.name))
        args } := by
  obtain ⟨nm, ws, ks, ts⟩ := args
  unfold buildFromDescription assembledEdges assembledNodes
  rcases ws with _ | ⟨w, ws⟩ <;> rcases ks with _ | ⟨kb, ks⟩ <;>
    rcases ts with _ | ⟨t, ts⟩ <;>
    simp only [createDomainSpecificHub_eq, conceptLoop_eq, webhookLoop_eq,
      kbLoop_eq, transferLoop_eq, createDomainResolutionNode_eq,
      createDomainCompletionNode_eq, conceptResolutionLoop_eq,
      otherResolutionLoop_eq, createConditionalEdge, List.length_nil,
      List.length_cons, Nat.lt_irrefl, Nat.zero_lt_succ, Nat.succ_pos,
      lt_self_iff_false, if_true, if_false, ite_true, ite_false, or_false,
      false_or, or_true, true_or, or_self] <;>
    simp +arith [List.append_assoc, nodesFromAux, hubEdgesAux]

end DomainSpecificBranchingBuilder

/-! ## Graph well-formedness -/

/-- The id list of a graph's nodes. -/
def Graph.nodeIds (g : Graph) : List String := g.nodes.map (·.id)

/-- Every edge endpoint names a node that is present in the graph. -/
def EdgesValid (g : Graph) : Prop :=
  ∀ e ∈ g.edges, e.source ∈ g.nodeIds ∧ e.target ∈ g.nodeIds

/-- Edge endpoints resolve and no two nodes share an id. -/
def WellFormedGraph (g : Graph) : Prop :=
  EdgesValid g ∧ g.nodeIds.Nodup

/-- One forward step along an edge of the list. -/
def EdgeStep (edges : List PathwayEdge) (a b : String) : Prop :=
  ∃ e ∈ edges, e.source = a ∧ e.target = b

/-- Forward reachability along edges. -/
def Reaches (edges : List PathwayEdge) : String → String → Prop :=
  Relation.ReflTransGen (EdgeStep edges)

/-- All ids in the list are counter ids with counters in `(lo, hi]`. -/
def IdsIn (lo hi : Nat) (l : List String) : Prop :=
  ∀ x ∈ l, ∃ p c, x = mkId p c ∧ lo < c ∧ c ≤ hi

theorem IdsIn.mono {lo hi lo' hi' : Nat} {l : List String}
    (h : IdsIn lo hi l) (h1 : lo' ≤ lo) (h2 : hi ≤ hi') : IdsIn lo' hi' l := by
  intro x hx
  obtain ⟨p, c, rfl, hc1, hc2⟩ := h x hx
  exact ⟨p, c, rfl, by omega, by omega⟩

theorem IdsIn.disjoint {lo1 hi1 lo2 hi2 : Nat} {l1 l2 : List String}
    (h1 : IdsIn lo1 hi1 l1) (h2 : IdsIn lo2 hi2 l2) (hle : hi1 ≤ lo2) :
    l1.Disjoint l2 := by
  intro x hx1 hx2
  obtain ⟨p, c, rfl, hc1, hc2⟩ := h1 x hx1
  obtain ⟨q, e, he, hd1, hd2⟩ := h2 _ hx2
  have := mkId_counter_inj he
  omega

namespace DomainSpecificBranchingBuilder

theorem nodesFromAux_idsIn {α : Type} {f : α → Nat → PathwayNode}
    (hf : ∀ x k, ∃ p, (f x k).id = mkId p k) :
    ∀ (l : List α) (n : Nat),
      IdsIn n (n + l.length) ((nodesFromAux f n l).map (·.id)) := by
  intro l
  induction l with
  | nil => intro n x hx; simp [nodesFromAux] at hx
  | cons a as ih =>
    intro n x hx
    simp only [nodesFromAux, List.map_cons, List.mem_cons] at hx
    rcases hx with rfl | hx
    · obtain ⟨p, hp⟩ := hf a (n + 1)
      exact ⟨p, n + 1, hp, by omega, by simp⟩
    · obtain ⟨p, c, rfl, hc1, hc2⟩ := ih (n + 1) x hx
      exact ⟨p, c, rfl, by omega, by simp; omega⟩

theorem nodesFromAux_nodup {α : Type} {f : α → Nat → PathwayNode}
    (hf : ∀ x k, ∃ p, (f x k).id = mkId p k) :
    ∀ (l : List α) (n : Nat), ((nodesFromAux f n l).map (·.id)).Nodup := by
  intro l
  induction l with
  | nil => intro n; simp [nodesFromAux]
  | cons a as ih =>
    intro n
    simp only [nodesFromAux, List.map_cons, List.nodup_cons]
    refine ⟨?_, ih (n + 1)⟩
    intro hmem
    obtain ⟨p, c, he, hc1, hc2⟩ := nodesFromAux_idsIn hf as (n + 1) _ hmem
    obtain ⟨q, hq⟩ := hf a (n + 1)
    rw [hq] at he
    have := mkId_counter_inj he
    omega

theorem hf_concept (domain : String) :
    ∀ (c : DomainConcept) (k : Nat),
      ∃ p, (domainConceptNode domain c k).id = mkId p k :=
  fun c k => ⟨c.conceptType ++ "_specialist", domainConceptNode_id domain c k⟩

theorem hf_webhook (domain : String) :
    ∀ (w : WebhookIntegration) (k : Nat),
      ∃ p, (domainWebhookNode domain w k).id = mkId p k :=
  fun w _ => ⟨replaceWs domain ++ "_" ++ (replaceWs w.name).lower, rfl⟩

theorem hf_kb (domain : String) :
    ∀ (x : KnowledgeBase) (k : Nat),
      ∃ p, (domainKnowledgeBaseNode domain x k).id = mkId p k :=
  fun x _ => ⟨replaceWs domain ++ "_" ++ (replaceWs x.name).lower, rfl⟩

theorem hf_transfer (domain : String) :
    ∀ (x : TransferTarget) (k : Nat),
      ∃ p, (domainTransferNode domain x k).id = mkId p k :=
  fun x _ => ⟨replaceWs domain ++ "_" ++ (replaceWs x.name).lower, rfl⟩

/-- The node-id segments of the assembled graph, in order. -/
def assembledIdTail (domain : String) (cs : List DomainConcept)
    (args : BuildArgs) : List String :=
  (nodesFromAux (domainConceptNode domain) 1 cs).map (·.id) ++
  (nodesFromAux (domainWebhookNode domain) (1 + cs.length)
    args.webhook_integrations).map (·.id) ++
  (nodesFromAux (domainKnowledgeBaseNode domain)
    (1 + cs.length + args.webhook_integrations.length)
    args.knowledge_bases).map (·.id) ++
  (nodesFromAux (domainTransferNode domain)
    (1 + cs.length + args.webhook_integrations.length +
      args.knowledge_bases.length) args.transfer_numbers).map (·.id) ++
  [mkId (replaceWs domain ++ "_resolution")
     (cs.length + args.webhook_integrations.length +
       args.knowledge_bases.length + args.transfer_numbers.length + 2),
   mkId (replaceWs domain ++ "_completion")
     (cs.length + args.webhook_integrations.length +
       args.knowledge_bases.length + args.transfer_numbers.length + 3)]

theorem assembledNodes_map_id (domain purpose : String)
    (cs : List DomainConcept) (args : BuildArgs) :
    (assembledNodes domain purpose cs args).map (·.id) =
      mkId (replaceWs domain ++ "_hub") 1 :: assembledIdTail domain cs args := by
  simp [assembledNodes, assembledIdTail]

theorem assembledIdTail_idsIn (domain : String) (cs : List DomainConcept)
    (args : BuildArgs) :
    IdsIn 1 (1 + cs.length + args.webhook_integrations.length +
        args.knowledge_bases.length + args.transfer_numbers.length + 2)
      (assembledIdTail domain cs args) := by
  have h1 := nodesFromAux_idsIn (hf_concept domain) cs 1
  have h2 := nodesFromAux_idsIn (hf_webhook domain)
    args.webhook_integrations (1 + cs.length)
  have h3 := nodesFromAux_idsIn (hf_kb domain) args.knowledge_bases
    (1 + cs.length + args.webhook_integrations.length)
  have h4 := nodesFromAux_idsIn (hf_transfer domain) args.transfer_numbers
    (1 + cs.length + args.webhook_integrations.length +
      args.knowledge_bases.length)
  intro x hx
  simp only [assembledIdTail, List.mem_append, List.mem_cons,
    List.not_mem_nil, or_false] at hx
  rcases hx with ((((hx | hx) | hx) | hx) | hx | hx)
  · exact (h1.mono (le_refl 1) (by omega)) x hx
  · exact (h2.mono (by omega) (by omega)) x hx
  · exact (h3.mono (by omega) (by omega)) x hx
  · exact (h4.mono (by omega) (by omega)) x hx
  · exact ⟨_, _, hx, by omega, by omega⟩
  · exact ⟨_, _, hx, by omega, by omega⟩

theorem assembledIdTail_nodup (domain : String) (cs : List DomainConcept)
    (args : BuildArgs) : (assembledIdTail domain cs args).Nodup := by
  have h1 := nodesFromAux_idsIn (hf_concept domain) cs 1
  have h2 := nodesFromAux_idsIn (hf_webhook domain)
    args.webhook_integrations (1 + cs.length)
  have h3 := nodesFromAux_idsIn (hf_kb domain) args.knowledge_bases
    (1 + cs.length + args.webhook_integrations.length)
  have h4 := nodesFromAux_idsIn (hf_transfer domain) args.transfer_numbers
    (1 + cs.length + args.webhook_integrations.length +
      args.knowledge_bases.length)
  have n1 := nodesFromAux_nodup (hf_concept domain) cs 1
  have n2 := nodesFromAux_nodup (hf_webhook domain)
    args.webhook_integrations (1 + cs.length)
  have n3 := nodesFromAux_nodup (hf_kb domain) args.knowledge_bases
    (1 + cs.length + args.webhook_integrations.length)
  have n4 := nodesFromAux_nodup (hf_transfer domain) args.transfer_numbers
    (1 + cs.length + args.webhook_integrations.length +
      args.knowledge_bases.length)
  have htail : IdsIn
      (1 + cs.length + args.webhook_integrations.length +
        args.knowledge_bases.length + args.transfer_numbers.length)
      (1 + cs.length + args.webhook_integrations.length +
        args.knowledge_bases.length + args.transfer_numbers.length + 2)
      [mkId (replaceWs domain ++ "_resolution")
         (cs.length + args.webhook_integrations.length +
           args.knowledge_bases.length + args.transfer_numbers.length + 2),
       mkId (replaceWs domain ++ "_completion")
         (cs.length + args.webhook_integrations.length +
           args.knowledge_bases.length + args.transfer_numbers.length + 3)] := by
    intro x hx
    simp only [List.mem_cons, List.not_mem_nil, or_false] at hx
    rcases hx with rfl | rfl
    · exact ⟨_, _, rfl, by omega, by omega⟩
    · exact ⟨_, _, rfl, by omega, by omega⟩
  have ntail : ([mkId (replaceWs domain ++ "_resolution")
      (cs.length + args.webhook_integrations.length +
        args.knowledge_bases.length + args.transfer_numbers.length + 2),
      mkId (replaceWs domain ++ "_completion")
        (cs.length + args.webhook_integrations.length +
          args.knowledge_bases.length + args.transfer_numbers.length + 3)] :
      List String).Nodup := by
    simp only [List.nodup_cons, List.mem_singleton, List.not_mem_nil,
      not_false_iff, List.nodup_nil, and_true]
    exact mkId_ne_of_counter_ne (by omega)
  unfold assembledIdTail
  rw [List.nodup_append, List.nodup_append, List.nodup_append,
    List.nodup_append]
  refine ⟨⟨⟨⟨n1, n2, h1.disjoint h2 (by omega)⟩, n3, ?_⟩, n4, ?_⟩,
    ntail, ?_⟩
  · intro x hx
    simp only [List.mem_append] at hx
    rcases hx with hx | hx
    · exact h1.disjoint h3 (by omega) hx
    · exact h2.disjoint h3 (by omega) hx
  · intro x hx
    simp only [List.mem_append] at hx
    rcases hx with (hx | hx) | hx
    · exact h1.disjoint h4 (by omega) hx
    · exact h2.disjoint h4 (by omega) hx
    · exact h3.disjoint h4 (by omega) hx
  · intro x hx
    simp only [List.mem_append] at hx
    have hin : ∃ q c, x = mkId q c ∧ 1 < c ∧
        c ≤ 1 + cs.length + args.webhook_integrations.length +
          args.knowledge_bases.length + args.transfer_numbers.length := by
      rcases hx with ((hx | hx) | hx) | hx
      · exact (h1.mono (le_refl 1) (by omega)) x hx
      · exact (h2.mono (by omega) (by omega)) x hx
      · exact (h3.mono (by omega) (by omega)) x hx
      · exact (h4.mono (by omega) (by omega)) x hx
    obtain ⟨q, c, rfl, hc1, hc2⟩ := hin
    intro hmem
    obtain ⟨q2, c2, he, hd1, hd2⟩ := htail _ hmem
    have := mkId_counter_inj he
    omega

theorem assembledNodes_ids_nodup (domain purpose : String)
    (cs : List DomainConcept) (args : BuildArgs) :
    ((assembledNodes domain purpose cs args).map (·.id)).Nodup := by
  rw [assembledNodes_map_id, List.nodup_cons]
  refine ⟨?_, assembledIdTail_nodup domain cs args⟩
  intro hmem
  obtain ⟨q, c, he, hc1, hc2⟩ :=
    assembledIdTail_idsIn domain cs args _ hmem
  have := mkId_counter_inj he
  omega

@[simp] theorem conditionalEdge_source (domain s t c d : String) (ec : Nat) :
    (conditionalEdge domain s t c d ec).source = s := rfl

@[simp] theorem conditionalEdge_target (domain s t c d : String) (ec : Nat) :
    (conditionalEdge domain s t c d ec).target = t := rfl

theorem hubEdgesAux_mem {α : Type} {g : α → Nat → Nat → PathwayEdge}
    {f : α → Nat → PathwayNode} {s : String}
    (hs : ∀ x nn ecc, (g x nn ecc).source = s)
    (ht : ∀ x nn ecc, (g x nn ecc).target = (f x nn).id) :
    ∀ (l : List α) (n ec : Nat), ∀ e ∈ hubEdgesAux g n ec l,
      e.source = s ∧ e.target ∈ (nodesFromAux f n l).map (·.id) := by
  intro l
  induction l with
  | nil => intro n ec e he; simp [hubEdgesAux] at he
  | cons a as ih =>
    intro n ec e he
    simp only [hubEdgesAux, List.mem_cons] at he
    rcases he with rfl | he
    · exact ⟨hs a (n + 1) (ec + 1), by
        simp [nodesFromAux, ht a (n + 1) (ec + 1)]⟩
    · obtain ⟨h1, h2⟩ := ih (n + 1) (ec + 1) e he
      exact ⟨h1, by simp [nodesFromAux]; right; simpa using h2⟩

theorem conceptPairsFrom_snd (domain : String) :
    ∀ (cs : List DomainConcept) (n : Nat),
      (conceptPairsFrom n cs).map Prod.snd =
        (nodesFromAux (domainConceptNode domain) n cs).map (·.id) := by
  intro cs
  induction cs with
  | nil => intro n; rfl
  | cons c rest ih =>
    intro n
    simp [conceptPairsFrom, nodesFromAux, domainConceptNode_id, ih (n + 1)]

theorem conceptResEdges_mem (domain rid : String) :
    ∀ (pairs : List (String × String)) (ec : Nat),
      ∀ e ∈ conceptResEdges domain rid ec pairs,
        e.target = rid ∧ e.source ∈ pairs.map Prod.snd := by
  intro pairs
  induction pairs with
  | nil => intro ec e he; simp [conceptResEdges] at he
  | cons pr rest ih =>
    intro ec e he
    obtain ⟨ct, nid⟩ := pr
    simp only [conceptResEdges, List.mem_cons] at he
    rcases he with rfl | he
    · simp
    · obtain ⟨h1, h2⟩ := ih (ec + 1) e he
      exact ⟨h1, by simp; right; simpa using h2⟩

theorem otherResEdges_mem (domain rid : String) :
    ∀ (ids : List String) (ec : Nat),
      ∀ e ∈ otherResEdges domain rid ec ids,
        e.target = rid ∧ e.source ∈ ids := by
  intro ids
  induction ids with
  | nil => intro ec e he; simp [otherResEdges] at he
  | cons i rest ih =>
    intro ec e he
    simp only [otherResEdges, List.mem_cons] at he
    rcases he with rfl | he
    · simp
    · obtain ⟨h1, h2⟩ := ih (ec + 1) e he
      exact ⟨h1, by simp [h2]⟩

theorem assembled_hub_mem (domain purpose : String) (cs : List DomainConcept)
    (args : BuildArgs) :
    mkId (replaceWs domain ++ "_hub") 1 ∈
      (assembledNodes domain purpose cs args).map (·.id) := by
  rw [assembledNodes_map_id]
  exact List.mem_cons_self _ _

theorem assembled_res_mem (domain purpose : String) (cs : List DomainConcept)
    (args : BuildArgs) :
    mkId (replaceWs domain ++ "_resolution")
      (cs.length + args.webhook_integrations.length +
        args.knowledge_bases.length + args.transfer_numbers.length + 2) ∈
      (assembledNodes domain purpose cs args).map (·.id) := by
  rw [assembledNodes_map_id]
  simp [assembledIdTail]

theorem assembled_comp_mem (domain purpose : String)
    (cs : List DomainConcept) (args : BuildArgs) :
    mkId (replaceWs domain ++ "_completion")
      (cs.length + args.webhook_integrations.length +
        args.knowledge_bases.length + args.transfer_numbers.length + 3) ∈
      (assembledNodes domain purpose cs args).map (·.id) := by
  rw [assembledNodes_map_id]
  simp [assembledIdTail]

theorem assembledEdges_valid (domain purpose : String)
    (cs : List DomainConcept) (args : BuildArgs) :
    ∀ e ∈ assembledEdges domain purpose cs args,
      e.source ∈ (assembledNodes domain purpose cs args).map (·.id) ∧
      e.target ∈ (assembledNodes domain purpose cs args).map (·.id) := by
  intro e he
  have hseg1 := hubEdgesAux_mem
    (g := fun c n ec => conditionalEdge domain
      (mkId (replaceWs domain ++ "_hub") 1)
      (mkId (c.conceptType ++ "_specialist") n) c.condition c.description ec)
    (f := domainConceptNode domain)
    (s := mkId (replaceWs domain ++ "_hub") 1)
    (fun x nn ecc => rfl)
    (fun x nn ecc => by simp [domainConceptNode_id]) cs 1 0
  have hseg2 := hubEdgesAux_mem
    (g := fun w n ec => conditionalEdge domain
      (mkId (replaceWs domain ++ "_hub") 1)
      ((domainWebhookNode domain w n).id) ("needs " ++ w.name.lower)
      ("Route to " ++ w.name ++ " for domain-specific processing") ec)
    (f := domainWebhookNode domain)
    (s := mkId (replaceWs domain ++ "_hub") 1)
    (fun x nn ecc => rfl) (fun x nn ecc => rfl)
    args.webhook_integrations (1 + cs.length) cs.length
  have hseg3 := hubEdgesAux_mem
    (g := fun kb n ec => conditionalEdge domain
      (mkId (replaceWs domain ++ "_hub") 1)
      ((domainKnowledgeBaseNode domain kb n).id)
      ("asks about " ++
        jsOr (kb.trigger_phrases.map (String.intercalate " or "))
          ("questions about " ++ kb.name.lower))
      ("Provide specialized information from " ++ kb.name) ec)
    (f := domainKnowledgeBaseNode domain)
    (s := mkId (replaceWs domain ++ "_hub") 1)
    (fun x nn ecc => rfl) (fun x nn ecc => rfl)
    args.knowledge_bases (1 + cs.length + args.webhook_integrations.length)
    (cs.length + args.webhook_integrations.length)
  have hseg4 := hubEdgesAux_mem
    (g := fun t n ec => conditionalEdge domain
      (mkId (replaceWs domain ++ "_hub") 1)
      ((domainTransferNode domain t n).id)
      (jsOr (t.conditions.map (String.intercalate " or "))
        ("needs " ++ t.name.lower))
      ("Transfer to " ++ t.name ++ " for specialized assistance") ec)
    (f := domainTransferNode domain)
    (s := mkId (replaceWs domain ++ "_hub") 1)
    (fun x nn ecc => rfl) (fun x nn ecc => rfl)
    args.transfer_numbers
    (1 + cs.length + args.webhook_integrations.length +
      args.knowledge_bases.length)
    (cs.length + args.webhook_integrations.length +
      args.knowledge_bases.length)
  have hhub := assembled_hub_mem domain purpose cs args
  have hres := assembled_res_mem domain purpose cs args
  have hcomp := assembled_comp_mem domain purpose cs args
  have htailmem : ∀ x, x ∈ assembledIdTail domain cs args →
      x ∈ (assembledNodes domain purpose cs args).map (·.id) := by
    intro x hx
    rw [assembledNodes_map_id]
    exact List.mem_cons_of_mem _ hx
  have hseg1mem : ∀ x,
      x ∈ (nodesFromAux (domainConceptNode domain) 1 cs).map (·.id) →
      x ∈ (assembledNodes domain purpose cs args).map (·.id) := by
    intro x hx
    refine htailmem x ?_
    unfold assembledIdTail
    exact List.mem_append_left _ (List.mem_append_left _ (List.mem_append_left _ (List.mem_append_left _ hx)))
  have hseg2mem : ∀ x,
      x ∈ (nodesFromAux (domainWebhookNode domain) (1 + cs.length)
        args.webhook_integrations).map (·.id) →
      x ∈ (assembledNodes domain purpose cs args).map (·.id) := by
    intro x hx
    refine htailmem x ?_
    unfold assembledIdTail
    exact List.mem_append_left _ (List.mem_append_left _ (List.mem_append_left _ (List.mem_append_right _ hx)))
  have hseg3mem : ∀ x,
      x ∈ (nodesFromAux (domainKnowledgeBaseNode domain)
        (1 + cs.length + args.webhook_integrations.length)
        args.knowledge_bases).map (·.id) →
      x ∈ (assembledNodes domain purpose cs args).map (·.id) := by
    intro x hx
    refine htailmem x ?_
    unfold assembledIdTail
    exact List.mem_append_left _ (List.mem_append_left _ (List.mem_append_right _ hx))
  have hseg4mem : ∀ x,
      x ∈ (nodesFromAux (domainTransferNode domain)
        (1 + cs.length + args.webhook_integrations.length +
          args.knowledge_bases.length) args.transfer_numbers).map (·.id) →
      x ∈ (assembledNodes domain purpose cs args).map (·.id) := by
    intro x hx
    refine htailmem x ?_
    unfold assembledIdTail
    exact List.mem_append_left _ (List.mem_append_right _ hx)
  simp only [assembledEdges] at he
  by_cases hcond : 0 < args.webhook_integrations.length ∨
      0 < args.knowledge_bases.length ∨ 0 < args.transfer_numbers.length
  · rw [if_pos hcond] at he
    simp only [List.mem_append, List.mem_cons, List.not_mem_nil,
      or_false, or_assoc] at he
    rcases he with he | he | he | he | he | he | he | he
    · obtain ⟨h1, h2⟩ := hseg1 e he
      exact ⟨h1 ▸ hhub, hseg1mem _ h2⟩
    · obtain ⟨h1, h2⟩ := hseg2 e he
      exact ⟨h1 ▸ hhub, hseg2mem _ h2⟩
    · obtain ⟨h1, h2⟩ := hseg3 e he
      exact ⟨h1 ▸ hhub, hseg3mem _ h2⟩
    · obtain ⟨h1, h2⟩ := hseg4 e he
      exact ⟨h1 ▸ hhub, hseg4mem _ h2⟩
    · obtain ⟨h1, h2⟩ := conceptResEdges_mem _ _ _ _ e he
      rw [conceptPairsFrom_snd domain] at h2
      exact ⟨hseg1mem _ h2, h1 ▸ hres⟩
    · obtain ⟨h1, h2⟩ := otherResEdges_mem _ _ _ _ e he
      refine ⟨?_, h1 ▸ hres⟩
      obtain ⟨nd, hnd, heq⟩ := List.mem_map.mp h2
      have hnd1 := List.mem_filter.mp hnd
      have hnd2 := List.mem_filter.mp hnd1.1
      rw [← heq]
      exact List.mem_map_of_mem _ hnd2.1
    · subst he
      exact ⟨hres, hcomp⟩
    · subst he
      exact ⟨hres, hhub⟩
  · rw [if_neg hcond] at he
    simp only [List.mem_append, List.mem_cons, List.not_mem_nil,
      or_false, or_assoc] at he
    rcases he with he | he | he | he | he | he | he
    · obtain ⟨h1, h2⟩ := hseg1 e he
      exact ⟨h1 ▸ hhub, hseg1mem _ h2⟩
    · obtain ⟨h1, h2⟩ := hseg2 e he
      exact ⟨h1 ▸ hhub, hseg2mem _ h2⟩
    · obtain ⟨h1, h2⟩ := hseg3 e he
      exact ⟨h1 ▸ hhub, hseg3mem _ h2⟩
    · obtain ⟨h1, h2⟩ := hseg4 e he
      exact ⟨h1 ▸ hhub, hseg4mem _ h2⟩
    · obtain ⟨h1, h2⟩ := conceptResEdges_mem _ _ _ _ e he
      rw [conceptPairsFrom_snd domain] at h2
      exact ⟨hseg1mem _ h2, h1 ▸ hres⟩
    · subst he
      exact ⟨hres, hcomp⟩
    · subst he
      exact ⟨hres, hhub⟩

end DomainSpecificBranchingBuilder

/-! ## Well-formedness of the template builders -/

namespace ModularPathwayBuilder

@[simp] theorem addNode_fst_nodes (b : ModularPathwayBuilder)
    (nb : ModularNodeBuilder) :
    (b.addNode nb).1.nodes = b.nodes ++ [nb.build] := rfl

@[simp] theorem addNode_fst_edges (b : ModularPathwayBuilder)
    (nb : ModularNodeBuilder) : (b.addNode nb).1.edges = b.edges := rfl

@[simp] theorem addNode_fst_nodeCount (b : ModularPathwayBuilder)
    (nb : ModularNodeBuilder) :
    (b.addNode nb).1.nodeCount = b.nodeCount := rfl

@[simp] theorem addNode_fst_edgeCount (b : ModularPathwayBuilder)
    (nb : ModularNodeBuilder) :
    (b.addNode nb).1.edgeCount = b.edgeCount := rfl

@[simp] theorem addNode_snd (b : ModularPathwayBuilder)
    (nb : ModularNodeBuilder) : (b.addNode nb).2 = nb.nodeId := rfl

@[simp] theorem addEdge_nodes (b : ModularPathwayBuilder)
    (s t l : String) (md : Option (String × String)) :
    (b.addEdge s t l md).nodes = b.nodes := rfl

@[simp] theorem addEdge_nodeCount (b : ModularPathwayBuilder)
    (s t l : String) (md : Option (String × String)) :
    (b.addEdge s t l md).nodeCount = b.nodeCount := rfl

@[simp] theorem addEdge_edges (b : ModularPathwayBuilder)
    (s t l : String) (md : Option (String × String)) :
    (b.addEdge s t l md).edges = b.edges ++
      [{ id := mkId "edge" (b.edgeCount + 1), source := s, target := t,
         label := l,
         data := md.map (fun m =>
           { name := some m.1, description := some m.2 }) }] := rfl

@[simp] theorem createNode_fst_nodes (b : ModularPathwayBuilder)
    (name : String) : (b.createNode name).1.nodes = b.nodes := rfl

@[simp] theorem createNode_fst_edges (b : ModularPathwayBuilder)
    (name : String) : (b.createNode name).1.edges = b.edges := rfl

@[simp] theorem createNode_fst_nodeCount (b : ModularPathwayBuilder)
    (name : String) :
    (b.createNode name).1.nodeCount = b.nodeCount + 1 := rfl

@[simp] theorem createNode_fst_edgeCount (b : ModularPathwayBuilder)
    (name : String) :
    (b.createNode name).1.edgeCount = b.edgeCount := rfl

@[simp] theorem createNode_snd (b : ModularPathwayBuilder) (name : String) :
    (b.createNode name).2 =
      ModularNodeBuilder.new (mkId "node" (b.nodeCount + 1)) name := rfl

@[simp] theorem build_nodes (b : ModularPathwayBuilder) :
    b.build.nodes = b.nodes := rfl

@[simp] theorem build_edges (b : ModularPathwayBuilder) :
    b.build.edges = b.edges := rfl

end ModularPathwayBuilder

/-- The id sequence `node_<n+1> .. node_<n+count>`. -/
def seqIds (n : Nat) : Nat → List String
  | 0 => []
  | count + 1 => mkId "node" (n + 1) :: seqIds (n + 1) count

theorem seqIds_idsIn (count : Nat) :
    ∀ n : Nat, IdsIn n (n + count) (seqIds n count) := by
  induction count with
  | zero => intro n x hx; simp [seqIds] at hx
  | succ c ih =>
    intro n x hx
    simp only [seqIds, List.mem_cons] at hx
    rcases hx with rfl | hx
    · exact ⟨"node", n + 1, rfl, by omega, by omega⟩
    · obtain ⟨p, cc, rfl, h1, h2⟩ := ih (n + 1) x hx
      exact ⟨p, cc, rfl, by omega, by omega⟩

theorem seqIds_nodup (count : Nat) : ∀ n : Nat, (seqIds n count).Nodup := by
  induction count with
  | zero => intro n; simp [seqIds]
  | succ c ih =>
    intro n
    simp only [seqIds, List.nodup_cons]
    refine ⟨?_, ih (n + 1)⟩
    intro hmem
    obtain ⟨p, cc, he, h1, h2⟩ := seqIds_idsIn c (n + 1) _ hmem
    have := mkId_counter_inj he
    omega

theorem edgeStep_iff_pair_mem (edges : List PathwayEdge) (a b : String) :
    EdgeStep edges a b ↔
      (a, b) ∈ edges.map (fun e => (e.source, e.target)) := by
  constructor
  · rintro ⟨e, he, h1, h2⟩
    subst h1
    subst h2
    exact List.mem_map_of_mem _ he
  · intro h
    obtain ⟨e, he, heq⟩ := List.mem_map.mp h
    exact ⟨e, he, congrArg Prod.fst heq, congrArg Prod.snd heq⟩

theorem edgesValid_of_pairs (g : Graph) (pairs : List (String × String))
    (hpairs : g.edges.map (fun e => (e.source, e.target)) = pairs)
    (hval : ∀ pr ∈ pairs, pr.1 ∈ g.nodeIds ∧ pr.2 ∈ g.nodeIds) :
    EdgesValid g := by
  intro e he
  have h := List.mem_map_of_mem (fun e => (e.source, e.target)) he
  rw [hpairs] at h
  exact hval _ h

theorem salesNodeIds (a : SalesArgs) :
    (buildEnterpriseSalesPathway a).nodeIds =
      ["node_1", "node_2", "node_3", "node_4", "node_5", "node_6", "node_7",
       "node_8", "node_9"] := rfl

theorem salesEdgePairs (a : SalesArgs) :
    (buildEnterpriseSalesPathway a).edges.map (fun e => (e.source, e.target)) =
      [("node_2", "node_3"), ("node_3", "node_5"), ("node_3", "node_6"),
       ("node_3", "node_7"), ("node_5", "node_8"), ("node_6", "node_8"),
       ("node_8", "node_9"), ("node_7", "node_9")] := rfl

theorem sales_wellFormed (a : SalesArgs) :
    WellFormedGraph (buildEnterpriseSalesPathway a) := by
  constructor
  · refine edgesValid_of_pairs _ _ (salesEdgePairs a) ?_
    rw [salesNodeIds]
    decide
  · rw [salesNodeIds]
    decide

theorem appointmentNodeIds (a : AppointmentArgs) :
    (buildIntelligentAppointmentSystem a).nodeIds =
      ["node_1", "node_2", "node_3", "node_4", "node_5", "node_6", "node_7",
       "node_8"] := rfl

theorem appointmentEdgePairs (a : AppointmentArgs) :
    (buildIntelligentAppointmentSystem a).edges.map
        (fun e => (e.source, e.target)) =
      [("node_2", "node_3"), ("node_3", "node_4"), ("node_4", "node_5"),
       ("node_4", "node_7"), ("node_7", "node_5"), ("node_5", "node_6"),
       ("node_6", "node_8")] := rfl

theorem appointment_wellFormed (a : AppointmentArgs) :
    WellFormedGraph (buildIntelligentAppointmentSystem a) := by
  constructor
  · refine edgesValid_of_pairs _ _ (appointmentEdgePairs a) ?_
    rw [appointmentNodeIds]
    decide
  · rw [appointmentNodeIds]
    decide

/-- The `specialistNodes` record as a function of the starting node
counter. -/
def recordLookupFun (n : Nat) :
    List String → (String → Option String) → (String → Option String)
  | [], m0 => m0
  | st :: rest, m0 =>
    recordLookupFun (n + 1) rest
      (fun k => if k = st then some (mkId "node" (n + 1)) else m0 k)

theorem csSpecialistLoop_snd (rw : Option String) :
    ∀ (sts : List String) (b : ModularPathwayBuilder)
      (m0 : String → Option String),
      (csSpecialistLoop rw sts b m0).2 =
        recordLookupFun b.nodeCount sts m0 := by
  intro sts
  induction sts with
  | nil => intro b m0; rfl
  | cons st rest ih =>
    intro b m0
    simp only [csSpecialistLoop, recordLookupFun]
    rw [ih]
    simp

theorem csSpecialistLoop_fst_nodes_map (rw : Option String) :
    ∀ (sts : List String) (b : ModularPathwayBuilder)
      (m0 : String → Option String),
      (csSpecialistLoop rw sts b m0).1.nodes.map (·.id) =
        b.nodes.map (·.id) ++ seqIds b.nodeCount sts.length := by
  intro sts
  induction sts with
  | nil => intro b m0; simp [csSpecialistLoop, seqIds]
  | cons st rest ih =>
    intro b m0
    simp only [csSpecialistLoop, seqIds, List.length_cons]
    rw [ih]
    simp [seqIds]

theorem csSpecialistLoop_fst_nodeCount (rw : Option String) :
    ∀ (sts : List String) (b : ModularPathwayBuilder)
      (m0 : String → Option String),
      (csSpecialistLoop rw sts b m0).1.nodeCount =
        b.nodeCount + sts.length := by
  intro sts
  induction sts with
  | nil => intro b m0; rfl
  | cons st rest ih =>
    intro b m0
    simp only [csSpecialistLoop, List.length_cons]
    rw [ih]
    simp
    omega

theorem csSpecialistLoop_fst_edges (rw : Option String) :
    ∀ (sts : List String) (b : ModularPathwayBuilder)
      (m0 : String → Option String),
      (csSpecialistLoop rw sts b m0).1.edges = b.edges := by
  intro sts
  induction sts with
  | nil => intro b m0; rfl
  | cons st rest ih =>
    intro b m0
    simp only [csSpecialistLoop]
    rw [ih]
    simp

theorem csSpecialistLoop_fst_edgeCount (rw : Option String) :
    ∀ (sts : List String) (b : ModularPathwayBuilder)
      (m0 : String → Option String),
      (csSpecialistLoop rw sts b m0).1.edgeCount = b.edgeCount := by
  intro sts
  induction sts with
  | nil => intro b m0; rfl
  | cons st rest ih =>
    intro b m0
    simp only [csSpecialistLoop]
    rw [ih]
    simp

theorem recordLookupFun_mem (n : Nat) :
    ∀ (sts : List String) (m0 : String → Option String) (k v : String),
      recordLookupFun n sts m0 k = some v →
      m0 k = some v ∨ v ∈ seqIds n sts.length := by
  intro sts
  induction sts generalizing n with
  | nil => intro m0 k v h; exact Or.inl h
  | cons st rest ih =>
    intro m0 k v h
    simp only [recordLookupFun] at h
    rcases ih (n + 1) _ k v h with h2 | h2
    · by_cases hk : k = st
      · simp only [hk, if_pos rfl] at h2
        right
        simp only [seqIds, List.mem_cons]
        left
        exact (Option.some.injEq _ _).mp h2.symm
      · simp only [if_neg hk] at h2
        exact Or.inl h2
    · right
      simp only [seqIds, List.length_cons, List.mem_cons]
      right
      exact h2

theorem recordLookupFun_isSome :
    ∀ (sts : List String) (n : Nat) (m0 : String → Option String)
      (k : String), ((m0 k).isSome ∨ k ∈ sts) →
      (recordLookupFun n sts m0 k).isSome := by
  intro sts
  induction sts with
  | nil =>
    intro n m0 k hk
    simp only [List.not_mem_nil, or_false] at hk
    exact hk
  | cons st rest ih =>
    intro n m0 k hk
    simp only [recordLookupFun]
    refine ih (n + 1) _ k ?_
    by_cases hst : k = st
    · left
      simp [hst]
    · simp only [if_neg hst]
      simpa [hst] using hk

theorem csClassificationEdgeLoop_nodes (cid : String)
    (m : String → Option String) :
    ∀ (sts : List String) (b : ModularPathwayBuilder),
      (csClassificationEdgeLoop cid m sts b).nodes = b.nodes := by
  intro sts
  induction sts with
  | nil => intro b; rfl
  | cons st rest ih =>
    intro b
    simp only [csClassificationEdgeLoop]
    rw [ih]
    simp

theorem csClassificationEdgeLoop_pairs (cid : String)
    (m : String → Option String) :
    ∀ (sts : List String) (b : ModularPathwayBuilder),
      (csClassificationEdgeLoop cid m sts b).edges.map
          (fun e => (e.source, e.target)) =
        b.edges.map (fun e => (e.source, e.target)) ++
          sts.map (fun st => (cid, (m st).getD "undefined")) := by
  intro sts
  induction sts with
  | nil => intro b; simp [csClassificationEdgeLoop]
  | cons st rest ih =>
    intro b
    simp only [csClassificationEdgeLoop, List.map_cons]
    rw [ih]
    simp

theorem csResolutionEdgeLoop_nodes (sid : String)
    (m : String → Option String) :
    ∀ (sts : List String) (b : ModularPathwayBuilder),
      (csResolutionEdgeLoop sid m sts b).nodes = b.nodes := by
  intro sts
  induction sts with
  | nil => intro b; rfl
  | cons st rest ih =>
    intro b
    simp only [csResolutionEdgeLoop]
    rw [ih]
    simp

theorem csResolutionEdgeLoop_pairs (sid : String)
    (m : String → Option String) :
    ∀ (sts : List String) (b : ModularPathwayBuilder),
      (csResolutionEdgeLoop sid m sts b).edges.map
          (fun e => (e.source, e.target)) =
        b.edges.map (fun e => (e.source, e.target)) ++
          sts.map (fun st => ((m st).getD "undefined", sid)) := by
  intro sts
  induction sts with
  | nil => intro b; simp [csResolutionEdgeLoop]
  | cons st rest ih =>
    intro b
    simp only [csResolutionEdgeLoop, List.map_cons]
    rw [ih]
    simp

theorem csNodeIds (args : ServiceArgs) :
    (buildAdvancedCustomerServicePathway args).nodeIds =
      mkId "node" 1 :: mkId "node" 2 :: mkId "node" 3 ::
        (seqIds 3 args.service_types.length ++
         [mkId "node" (3 + args.service_types.length + 1),
          mkId "node" (3 + args.service_types.length + 2),
          mkId "node" (3 + args.service_types.length + 3)]) := by
  unfold buildAdvancedCustomerServicePathway Graph.nodeIds
  simp only [ModularPathwayBuilder.createNode, ModularPathwayBuilder.addNode,
    ModularPathwayBuilder.addEdge, ModularPathwayBuilder.build,
    csClassificationEdgeLoop_nodes, csResolutionEdgeLoop_nodes]
  simp [csSpecialistLoop_fst_nodes_map, csSpecialistLoop_fst_nodeCount]

theorem csEdgePairs (args : ServiceArgs) :
    (buildAdvancedCustomerServicePathway args).edges.map
        (fun e => (e.source, e.target)) =
      (mkId "node" 2, mkId "node" 3) ::
        (args.service_types.map (fun st => (mkId "node" 3,
           ((recordLookupFun 3 args.service_types (fun _ => none))
             st).getD "undefined")) ++
         ((mkId "node" 3, mkId "node" (3 + args.service_types.length + 1)) ::
          (args.service_types.map (fun st =>
             (((recordLookupFun 3 args.service_types (fun _ => none))
                st).getD "undefined",
              mkId "node" (3 + args.service_types.length + 2))) ++
           [(mkId "node" (3 + args.service_types.length + 1),
             mkId "node" (3 + args.service_types.length + 2)),
            (mkId "node" (3 + args.service_types.length + 2),
             mkId "node" (3 + args.service_types.length + 3))]))) := by
  unfold buildAdvancedCustomerServicePathway
  simp only [ModularPathwayBuilder.createNode, ModularPathwayBuilder.addNode,
    ModularPathwayBuilder.addEdge, ModularPathwayBuilder.build,
    csClassificationEdgeLoop_nodes, csResolutionEdgeLoop_nodes]
  simp [csSpecialistLoop_fst_edges, csSpecialistLoop_fst_edgeCount,
    csSpecialistLoop_fst_nodeCount, csSpecialistLoop_snd,
    csClassificationEdgeLoop_pairs, csResolutionEdgeLoop_pairs]

theorem cs_wellFormed (args : ServiceArgs) :
    WellFormedGraph (buildAdvancedCustomerServicePathway args) := by
  have hL := csNodeIds args
  have hlookup : ∀ st ∈ args.service_types,
      ((recordLookupFun 3 args.service_types (fun _ => none)) st).getD
          "undefined" ∈ seqIds 3 args.service_types.length := by
    intro st hst
    have hsome := recordLookupFun_isSome args.service_types 3
      (fun _ => none) st (Or.inr hst)
    obtain ⟨v, hv⟩ := Option.isSome_iff_exists.mp hsome
    rw [hv]
    simp only [Option.getD_some]
    rcases recordLookupFun_mem 3 args.service_types (fun _ => none)
      st v hv with h | h
    · simp at h
    · exact h
  constructor
  · refine edgesValid_of_pairs _ _ (csEdgePairs args) ?_
    intro pr hpr
    rw [hL]
    simp only [List.mem_cons, List.mem_append, List.mem_map,
      List.not_mem_nil, or_false] at hpr
    rcases hpr with rfl | ⟨st, hst, rfl⟩ | rfl | ⟨st, hst, rfl⟩ | rfl | rfl
    · constructor <;> simp
    · constructor
      · simp
      · have := hlookup st hst
        simp only [List.mem_cons, List.mem_append]
        tauto
    · constructor <;> simp
    · constructor
      · have := hlookup st hst
        simp only [List.mem_cons, List.mem_append]
        tauto
      · simp
    · constructor <;> simp
    · constructor <;> simp
  · rw [hL]
    have hseq := seqIds_idsIn args.service_types.length 3
    have hnd := seqIds_nodup args.service_types.length 3
    simp only [List.nodup_cons, List.mem_cons, List.mem_append,
      List.not_mem_nil, or_false, List.nodup_append, List.mem_singleton]
    refine ⟨?_, ?_, ?_, ?_⟩
    · push_neg
      refine ⟨mkId_ne_of_counter_ne (by omega),
        mkId_ne_of_counter_ne (by omega), ?_, ?_, ?_, ?_⟩
      · intro hmem
        obtain ⟨p, c, he, h1, h2⟩ := hseq _ hmem
        have := mkId_counter_inj he
        omega
      · exact mkId_ne_of_counter_ne (by omega)
      · exact mkId_ne_of_counter_ne (by omega)
      · exact mkId_ne_of_counter_ne (by omega)
    · push_neg
      refine ⟨mkId_ne_of_counter_ne (by omega), ?_, ?_, ?_, ?_⟩
      · intro hmem
        obtain ⟨p, c, he, h1, h2⟩ := hseq _ hmem
        have := mkId_counter_inj he
        omega
      · exact mkId_ne_of_counter_ne (by omega)
      · exact mkId_ne_of_counter_ne (by omega)
      · exact mkId_ne_of_counter_ne (by omega)
    · push_neg
      refine ⟨?_, ?_, ?_, ?_⟩
      · intro hmem
        obtain ⟨p, c, he, h1, h2⟩ := hseq _ hmem
        have := mkId_counter_inj he
        omega
      · exact mkId_ne_of_counter_ne (by omega)
      · exact mkId_ne_of_counter_ne (by omega)
      · exact mkId_ne_of_counter_ne (by omega)
    · refine ⟨hnd, ?_, ?_⟩
      · simp only [List.nodup_cons, List.mem_cons, List.mem_singleton,
          List.not_mem_nil, not_false_iff, List.nodup_nil, and_true,
          List.mem_singleton]
        push_neg
        refine ⟨⟨mkId_ne_of_counter_ne (by omega),
          mkId_ne_of_counter_ne (by omega)⟩,
          mkId_ne_of_counter_ne (by omega)⟩
      · intro x hx
        obtain ⟨p, c, rfl, h1, h2⟩ := hseq _ hx
        intro hmem
        simp only [List.mem_cons, List.not_mem_nil, or_false] at hmem
        rcases hmem with he | he | he <;>
          exact absurd (mkId_counter_inj he) (by omega)

theorem cwDecisionLoop_snd :
    ∀ (dps : List String) (b : ModularPathwayBuilder)
      (m0 : String → Option String),
      (cwDecisionLoop dps b m0).2 = recordLookupFun b.nodeCount dps m0 := by
  intro dps
  induction dps with
  | nil => intro b m0; rfl
  | cons dp rest ih =>
    intro b m0
    simp only [cwDecisionLoop, recordLookupFun]
    rw [ih]
    simp

theorem cwDecisionLoop_fst_nodes_map :
    ∀ (dps : List String) (b : ModularPathwayBuilder)
      (m0 : String → Option String),
      (cwDecisionLoop dps b m0).1.nodes.map (·.id) =
        b.nodes.map (·.id) ++ seqIds b.nodeCount dps.length := by
  intro dps
  induction dps with
  | nil => intro b m0; simp [cwDecisionLoop, seqIds]
  | cons dp rest ih =>
    intro b m0
    simp only [cwDecisionLoop, seqIds, List.length_cons]
    rw [ih]
    simp [seqIds]

theorem cwDecisionLoop_fst_nodeCount :
    ∀ (dps : List String) (b : ModularPathwayBuilder)
      (m0 : String → Option String),
      (cwDecisionLoop dps b m0).1.nodeCount = b.nodeCount + dps.length := by
  intro dps
  induction dps with
  | nil => intro b m0; rfl
  | cons dp rest ih =>
    intro b m0
    simp only [cwDecisionLoop, List.length_cons]
    rw [ih]
    simp
    omega

theorem cwDecisionLoop_fst_edges :
    ∀ (dps : List String) (b : ModularPathwayBuilder)
      (m0 : String → Option String),
      (cwDecisionLoop dps b m0).1.edges = b.edges := by
  intro dps
  induction dps with
  | nil => intro b m0; rfl
  | cons dp rest ih =>
    intro b m0
    simp only [cwDecisionLoop]
    rw [ih]
    simp

theorem cwDecisionLoop_fst_edgeCount :
    ∀ (dps : List String) (b : ModularPathwayBuilder)
      (m0 : String → Option String),
      (cwDecisionLoop dps b m0).1.edgeCount = b.edgeCount := by
  intro dps
  induction dps with
  | nil => intro b m0; rfl
  | cons dp rest ih =>
    intro b m0
    simp only [cwDecisionLoop]
    rw [ih]
    simp

/-- The source/target pairs added by the decision-chain edge loop. -/
def cwChainPairs (m : String → Option String) (pid : String) :
    String → List String → List (String × String)
  | _, [] => []
  | cur, dp :: rest =>
    (cur, (m dp).getD "undefined") ::
      ((m dp).getD "undefined",
        match rest with
        | [] => pid
        | dp2 :: _ => (m dp2).getD "undefined") ::
      cwChainPairs m pid ((m dp).getD "undefined") rest

theorem cwChainLoop_nodes (m : String → Option String) (pid : String) :
    ∀ (dps : List String) (i : Nat) (cur : String)
      (b : ModularPathwayBuilder),
      (cwChainLoop m pid i cur dps b).nodes = b.nodes := by
  intro dps
  induction dps with
  | nil => intro i cur b; rfl
  | cons dp rest ih =>
    intro i cur b
    simp only [cwChainLoop]
    rw [ih]
    simp

theorem cwChainLoop_pairs (m : String → Option String) (pid : String) :
    ∀ (dps : List String) (i : Nat) (cur : String)
      (b : ModularPathwayBuilder),
      (cwChainLoop m pid i cur dps b).edges.map
          (fun e => (e.source, e.target)) =
        b.edges.map (fun e => (e.source, e.target)) ++
          cwChainPairs m pid cur dps := by
  intro dps
  induction dps with
  | nil => intro i cur b; simp [cwChainLoop, cwChainPairs]
  | cons dp rest ih =>
    intro i cur b
    simp only [cwChainLoop, cwChainPairs]
    rw [ih]
    rcases rest with _ | ⟨dp2, rest2⟩ <;> simp

theorem cwChainPairs_mem (m : String → Option String) (pid : String) :
    ∀ (dps : List String) (cur : String),
      ∀ pr ∈ cwChainPairs m pid cur dps,
        (pr.1 = cur ∨ ∃ dp ∈ dps, pr.1 = (m dp).getD "undefined") ∧
        (pr.2 = pid ∨ ∃ dp ∈ dps, pr.2 = (m dp).getD "undefined") := by
  intro dps
  induction dps with
  | nil => intro cur pr hpr; simp [cwChainPairs] at hpr
  | cons dp rest ih =>
    intro cur pr hpr
    simp only [cwChainPairs, List.mem_cons] at hpr
    rcases hpr with rfl | rfl | hpr
    · exact ⟨Or.inl rfl, Or.inr ⟨dp, List.mem_cons_self _ _, rfl⟩⟩
    · refine ⟨Or.inr ⟨dp, List.mem_cons_self _ _, rfl⟩, ?_⟩
      rcases rest with _ | ⟨dp2, rest2⟩
      · exact Or.inl rfl
      · exact Or.inr ⟨dp2, List.mem_cons_of_mem _ (List.mem_cons_self _ _),
          rfl⟩
    · obtain ⟨h1, h2⟩ := ih ((m dp).getD "undefined") pr hpr
      constructor
      · rcases h1 with h1 | ⟨dp2, hdp2, h1⟩
        · exact Or.inr ⟨dp, List.mem_cons_self _ _, h1⟩
        · exact Or.inr ⟨dp2, List.mem_cons_of_mem _ hdp2, h1⟩
      · rcases h2 with h2 | ⟨dp2, hdp2, h2⟩
        · exact Or.inl h2
        · exact Or.inr ⟨dp2, List.mem_cons_of_mem _ hdp2, h2⟩

/-- The decision-point list of a workflow-args value (empty when absent). -/
def cwDps (args : WorkflowArgs) : List String :=
  match args.decision_points with
  | some dps => dps
  | none => []

/-- The processor node id of the custom workflow graph. -/
def cwProcessorId (args : WorkflowArgs) : String :=
  mkId "node" (2 + (cwDps args).length + 1)

/-- The results node id of the custom workflow graph. -/
def cwResultsId (args : WorkflowArgs) : String :=
  mkId "node" (2 + (cwDps args).length +
    (if args.advanced_features.global_fallbacks then 3 else 2))

/-- The completion node id of the custom workflow graph. -/
def cwCompletionId (args : WorkflowArgs) : String :=
  mkId "node" (2 + (cwDps args).length +
    (if args.advanced_features.global_fallbacks then 4 else 3))

theorem cwNodeIds (args : WorkflowArgs) :
    (buildCustomWorkflowPathway args).nodeIds =
      mkId "node" 1 :: mkId "node" 2 ::
        (seqIds 2 (cwDps args).length ++
         (cwProcessorId args ::
          ((if args.advanced_features.global_fallbacks then
              [mkId "node" (2 + (cwDps args).length + 2)] else []) ++
           [cwResultsId args, cwCompletionId args]))) := by
  unfold buildCustomWorkflowPathway Graph.nodeIds cwProcessorId cwResultsId
    cwCompletionId cwDps
  by_cases hfb : args.advanced_features.global_fallbacks <;>
    rcases hdp : args.decision_points with _ | ⟨_ | ⟨dp, dps⟩⟩ <;>
    simp only [ModularPathwayBuilder.createNode,
      ModularPathwayBuilder.addNode, ModularPathwayBuilder.addEdge,
      ModularPathwayBuilder.build, cwChainLoop_nodes, hfb,
      List.length_nil, List.length_cons, Nat.lt_irrefl, lt_self_iff_false,
      Nat.zero_lt_succ, if_true, if_false, ite_true, ite_false] <;>
    simp [cwDecisionLoop_fst_nodes_map, cwDecisionLoop_fst_nodeCount,
      seqIds, Nat.add_assoc, Nat.add_comm, Nat.add_left_comm]

theorem cwEdgePairs (args : WorkflowArgs) :
    (buildCustomWorkflowPathway args).edges.map
        (fun e => (e.source, e.target)) =
      (match args.decision_points with
       | some dps =>
         if 0 < dps.length then
           cwChainPairs (recordLookupFun 2 dps (fun _ => none))
             (cwProcessorId args) (mkId "node" 2) dps
         else [(mkId "node" 2, cwProcessorId args)]
       | none => [(mkId "node" 2, cwProcessorId args)]) ++
      [(cwProcessorId args, cwResultsId args),
       (cwResultsId args, cwCompletionId args)] := by
  unfold buildCustomWorkflowPathway cwProcessorId cwResultsId
    cwCompletionId cwDps
  by_cases hfb : args.advanced_features.global_fallbacks <;>
    rcases hdp : args.decision_points with _ | ⟨_ | ⟨dp, dps⟩⟩ <;>
    simp only [ModularPathwayBuilder.createNode,
      ModularPathwayBuilder.addNode, ModularPathwayBuilder.addEdge,
      ModularPathwayBuilder.build, hfb,
      List.length_nil, List.length_cons, Nat.lt_irrefl, lt_self_iff_false,
      Nat.zero_lt_succ, if_true, if_false, ite_true, ite_false] <;>
    simp [cwChainLoop_pairs, cwChainLoop_nodes, cwDecisionLoop_fst_edges,
      cwDecisionLoop_fst_edgeCount, cwDecisionLoop_fst_nodeCount,
      cwDecisionLoop_snd, Nat.add_assoc, Nat.add_comm, Nat.add_left_comm]

theorem cw_wellFormed (args : WorkflowArgs) :
    WellFormedGraph (buildCustomWorkflowPathway args) := by
  have hL := cwNodeIds args
  constructor
  · refine edgesValid_of_pairs _ _ (cwEdgePairs args) ?_
    intro pr hpr
    rw [hL]
    rcases hdp : args.decision_points with _ | dps
    · simp only [hdp] at hpr
      simp only [List.cons_append, List.nil_append, List.mem_cons,
        List.not_mem_nil, or_false] at hpr
      rcases hpr with rfl | rfl | rfl <;>
        constructor <;> simp
    · rcases dps with _ | ⟨dp, rest⟩
      · simp only [hdp, List.length_nil, Nat.lt_irrefl, if_false] at hpr
        simp only [List.cons_append, List.nil_append, List.mem_cons,
          List.not_mem_nil, or_false] at hpr
        rcases hpr with rfl | rfl | rfl <;>
          constructor <;> simp
      · simp only [hdp, List.length_cons, Nat.zero_lt_succ, if_true,
          List.mem_append, List.mem_cons, List.not_mem_nil, or_false] at hpr
        have hlookup : ∀ d ∈ dp :: rest,
            ((recordLookupFun 2 (dp :: rest) (fun _ => none)) d).getD
                "undefined" ∈ seqIds 2 (dp :: rest).length := by
          intro d hd
          have hsome := recordLookupFun_isSome (dp :: rest) 2
            (fun _ => none) d (Or.inr hd)
          obtain ⟨v, hv⟩ := Option.isSome_iff_exists.mp hsome
          rw [hv]
          simp only [Option.getD_some]
          rcases recordLookupFun_mem 2 (dp :: rest) (fun _ => none)
            d v hv with h | h
          · simp at h
          · exact h
        have hseqmem : ∀ x ∈ seqIds 2 (dp :: rest).length,
            x ∈ mkId "node" 1 :: mkId "node" 2 ::
              (seqIds 2 (cwDps args).length ++
               (cwProcessorId args ::
                ((if args.advanced_features.global_fallbacks then
                    [mkId "node" (2 + (cwDps args).length + 2)] else []) ++
                 [cwResultsId args, cwCompletionId args]))) := by
          intro x hx
          simp only [cwDps, hdp]
          exact List.mem_cons_of_mem _ (List.mem_cons_of_mem _
            (List.mem_append_left _ hx))
        rcases hpr with hchain | rfl | rfl
        · obtain ⟨h1, h2⟩ := cwChainPairs_mem
            (recordLookupFun 2 (dp :: rest) (fun _ => none))
            (cwProcessorId args) (dp :: rest) (mkId "node" 2) pr hchain
          constructor
          · rcases h1 with h1 | ⟨d, hd, h1⟩
            · rw [h1]; simp
            · rw [h1]; exact hseqmem _ (hlookup d hd)
          · rcases h2 with h2 | ⟨d, hd, h2⟩
            · rw [h2]; simp
            · rw [h2]; exact hseqmem _ (hlookup d hd)
        · constructor <;> simp
        · constructor <;> simp
  · rw [hL]
    have hseq := seqIds_idsIn (cwDps args).length 2
    have hseqnd := seqIds_nodup (cwDps args).length 2
    have key : ∀ cs : List Nat, cs.Nodup →
        (∀ c ∈ cs, 2 + (cwDps args).length < c) →
        (mkId "node" 1 :: mkId "node" 2 ::
          (seqIds 2 (cwDps args).length ++
            cs.map (mkId "node"))).Nodup := by
      intro cs hnd hgt
      simp only [List.nodup_cons, List.mem_cons, List.mem_append,
        List.mem_map]
      refine ⟨?_, ?_, ?_⟩
      · intro h
        rcases h with he | hmem | ⟨c, hc, he⟩
        · exact absurd (mkId_counter_inj he) (by omega)
        · obtain ⟨p, c, he, h1, h2⟩ := hseq _ hmem
          exact absurd (mkId_counter_inj he) (by omega)
        · have h1 := mkId_counter_inj he
          have h2 := hgt c hc
          omega
      · intro h
        rcases h with hmem | ⟨c, hc, he⟩
        · obtain ⟨p, c, he, h1, h2⟩ := hseq _ hmem
          exact absurd (mkId_counter_inj he) (by omega)
        · have h1 := mkId_counter_inj he
          have h2 := hgt c hc
          omega
      · rw [List.nodup_append]
        refine ⟨hseqnd, hnd.map (fun a b h => mkId_counter_inj h), ?_⟩
        intro x hx hx2
        obtain ⟨p, c, rfl, h1, h2⟩ := hseq _ hx
        obtain ⟨c2, hc2, he⟩ := List.mem_map.mp hx2
        have h3 := mkId_counter_inj he
        have h4 := hgt c2 hc2
        omega
    by_cases hfb : args.advanced_features.global_fallbacks
    · have h := key
        [2 + (cwDps args).length + 1, 2 + (cwDps args).length + 2,
         2 + (cwDps args).length + 3, 2 + (cwDps args).length + 4]
        (by simp only [List.nodup_cons, List.mem_cons, List.mem_singleton,
              List.not_mem_nil, or_false, List.nodup_nil, and_true,
              List.nodup_singleton, not_false_eq_true]
            push_neg
            omega)
        (by intro c hc
            simp only [List.mem_cons, List.mem_singleton,
              List.not_mem_nil, or_false] at hc
            omega)
      simp only [hfb, ite_true, cwProcessorId, cwResultsId, cwCompletionId,
        if_true]
      simpa using h
    · have h := key
        [2 + (cwDps args).length + 1, 2 + (cwDps args).length + 2,
         2 + (cwDps args).length + 3]
        (by simp only [List.nodup_cons, List.mem_cons, List.mem_singleton,
              List.not_mem_nil, or_false, List.nodup_nil, and_true,
              List.nodup_singleton, not_false_eq_true]
            push_neg
            omega)
        (by intro c hc
            simp only [List.mem_cons, List.mem_singleton,
              List.not_mem_nil, or_false] at hc
            omega)
      simp only [hfb, ite_false, cwProcessorId, cwResultsId, cwCompletionId,
        if_false]
      simpa using h

/-! ## Claim theorems -/

/-- C4: In every generated graph — from the domain-specific assembler
`buildFromDescription` and from each of the four specialized template
builders — every edge's source and target equal the id of a node present in
that same graph, and no two nodes of the graph share an id. -/
theorem claim_C4_generated_graphs_wellFormed :
    (∀ (d : String) (args : BuildArgs),
      WellFormedGraph (DomainSpecificBranchingBuilder.buildFromDescription
        d args)) ∧
    (∀ a : SalesArgs, WellFormedGraph (buildEnterpriseSalesPathway a)) ∧
    (∀ a : ServiceArgs,
      WellFormedGraph (buildAdvancedCustomerServicePathway a)) ∧
    (∀ a : AppointmentArgs,
      WellFormedGraph (buildIntelligentAppointmentSystem a)) ∧
    (∀ a : WorkflowArgs, WellFormedGraph (buildCustomWorkflowPathway a)) := by
  refine ⟨?_, sales_wellFormed, cs_wellFormed, appointment_wellFormed,
    cw_wellFormed⟩
  intro d args
  rw [DomainSpecificBranchingBuilder.buildFromDescription_eq]
  constructor
  · intro e he
    exact DomainSpecificBranchingBuilder.assembledEdges_valid _ _ _ _ e he
  · exact DomainSpecificBranchingBuilder.assembledNodes_ids_nodup _ _ _ _

/-- C1: Refuted as stated.  On the input below (one detected concept, one
webhook integration) the concept node `urgent_assistance_specialist_2` has
TWO completion edges into the resolution node rather than exactly one: the
resolution loop over `otherNodeIds` filters out concept nodes by comparing
node ids against concept TYPES, so every concept node is wired a second
time. -/
theorem claim_C1_concept_node_double_completion_edge :
    ((DomainSpecificBranchingBuilder.buildFromDescription
        "We need urgent help with billing issues"
        { name := "Acme",
          webhook_integrations :=
            [{ name := "CRM Sync",
               url := some "https://x.example/hook" }] }).edges.filter
      (fun e => e.source == "urgent_assistance_specialist_2" &&
        e.target == "specialized_business_resolution_4")).length = 2 := by
  rw [DomainSpecificBranchingBuilder.buildFromDescription_eq]
  have hconc : DomainSpecificBranchingBuilder.extractDomainSpecificConcepts
      "We need urgent help with billing issues"
      (DomainSpecificBranchingBuilder.extractPrimaryDomain
        "We need urgent help with billing issues" "Acme") =
      [DomainSpecificBranchingBuilder.urgentConcept] := by
    unfold DomainSpecificBranchingBuilder.extractDomainSpecificConcepts
    rw [show DomainSpecificBranchingBuilder.extractPrimaryDomain
      "We need urgent help with billing issues" "Acme" =
      "specialized business" from rfl]
    norm_num
    exact List.mergeSort_singleton _
  rw [hconc]
  rfl

/-- C2: Refuted as stated.  The empty description with empty options does
produce the three expected nodes with no dangling edges, but the two edges
wired are resolution→completion and resolution→hub: there is NO hub→
resolution edge, so the promised hub → resolution → terminal chain is
absent (the hub has no outgoing edge at all). -/
theorem claim_C2_degenerate_graph_shape :
    ((DomainSpecificBranchingBuilder.buildFromDescription ""
        { name := "" }).nodes.map (·.id) =
      ["specialized_business_hub_1", "specialized_business_resolution_2",
       "specialized_business_completion_3"]) ∧
    ((DomainSpecificBranchingBuilder.buildFromDescription ""
        { name := "" }).edges.map (fun e => (e.source, e.target)) =
      [("specialized_business_resolution_2",
        "specialized_business_completion_3"),
       ("specialized_business_resolution_2",
        "specialized_business_hub_1")]) ∧
    ((DomainSpecificBranchingBuilder.buildFromDescription ""
        { name := "" }).edges.filter
      (fun e => e.source == "specialized_business_hub_1")).length = 0 := by
  rw [DomainSpecificBranchingBuilder.buildFromDescription_eq]
  have hconc : DomainSpecificBranchingBuilder.extractDomainSpecificConcepts
      ""
      (DomainSpecificBranchingBuilder.extractPrimaryDomain "" "") = [] := by
    unfold DomainSpecificBranchingBuilder.extractDomainSpecificConcepts
    rw [show DomainSpecificBranchingBuilder.extractPrimaryDomain "" "" =
      "specialized business" from rfl]
    norm_num
    exact List.mergeSort_nil
  rw [hconc]
  refine ⟨rfl, rfl, rfl⟩

/-- C3: Refuted.  In the degenerate graph the resolution node is not
global and the hub is the unique start node, yet the resolution node is
not reachable from the hub by following edges forward: the hub has no
outgoing edge at all (see C2), so forward reachability from the start
stops at the hub. -/
theorem claim_C3_resolution_unreachable_from_start :
    (((DomainSpecificBranchingBuilder.buildFromDescription ""
        { name := "" }).nodes.filter
      (fun n => n.data.isStart == some true)).map (·.id) =
      ["specialized_business_hub_1"]) ∧
    (((DomainSpecificBranchingBuilder.buildFromDescription ""
        { name := "" }).nodes.filter
      (fun n => n.id == "specialized_business_resolution_2" &&
        n.data.isGlobal != some true)).length = 1) ∧
    ¬ Reaches (DomainSpecificBranchingBuilder.buildFromDescription ""
        { name := "" }).edges
      "specialized_business_hub_1" "specialized_business_resolution_2" := by
  rw [DomainSpecificBranchingBuilder.buildFromDescription_eq]
  have hconc : DomainSpecificBranchingBuilder.extractDomainSpecificConcepts
      ""
      (DomainSpecificBranchingBuilder.extractPrimaryDomain "" "") = [] := by
    unfold DomainSpecificBranchingBuilder.extractDomainSpecificConcepts
    rw [show DomainSpecificBranchingBuilder.extractPrimaryDomain "" "" =
      "specialized business" from rfl]
    norm_num
    exact List.mergeSort_nil
  rw [hconc]
  refine ⟨rfl, rfl, ?_⟩
  intro h
  rcases (Relation.ReflTransGen.cases_head h) with heq | ⟨c, hstep, _⟩
  · exact absurd heq (by decide)
  · obtain ⟨e, he, hs, ht⟩ := hstep
    have hmem : e.source ∈
        ((DomainSpecificBranchingBuilder.assembledEdges
          (DomainSpecificBranchingBuilder.extractPrimaryDomain "" "")
          (DomainSpecificBranchingBuilder.extractPrimaryPurpose "") []
          { name := "" }).map (fun e => e.source)) :=
      List.mem_map_of_mem _ he
    rw [hs] at hmem
    rw [show ((DomainSpecificBranchingBuilder.assembledEdges
        (DomainSpecificBranchingBuilder.extractPrimaryDomain "" "")
        (DomainSpecificBranchingBuilder.extractPrimaryPurpose "") []
        { name := "" }).map (fun e => e.source)) =
      ["specialized_business_resolution_2",
       "specialized_business_resolution_2"] from rfl] at hmem
    revert hmem
    decide

namespace DomainSpecificBranchingBuilder

theorem nodesFromAux_filter_false {α : Type} (f : α → Nat → PathwayNode)
    (p : PathwayNode → Bool) (h : ∀ x n, p (f x n) = false) :
    ∀ (xs : List α) (n : Nat), (nodesFromAux f n xs).filter p = [] := by
  intro xs
  induction xs with
  | nil => intro n; rfl
  | cons x rest ih =>
    intro n
    simp [nodesFromAux, List.filter_cons, h, ih]

theorem nodesFromAux_filter_true {α : Type} (f : α → Nat → PathwayNode)
    (p : PathwayNode → Bool) (h : ∀ x n, p (f x n) = true) :
    ∀ (xs : List α) (n : Nat),
      ((nodesFromAux f n xs).filter p).length = xs.length := by
  intro xs
  induction xs with
  | nil => intro n; rfl
  | cons x rest ih =>
    intro n
    simp [nodesFromAux, List.filter_cons, h, ih]

/-- C5: Corrected.  The assembler does not skip malformed webhook
descriptors and returns no wired-integration counts: EVERY webhook
integration of the options bag, a URL-less one included, is wired as one
webhook-typed node, so the graph always carries exactly one webhook node
per requested integration. -/
theorem claim_C5_every_webhook_wired (d : String) (args : BuildArgs) :
    ((buildFromDescription d args).nodes.filter
      (fun node => node.nodeType == NodeType.webhook)).length =
      args.webhook_integrations.length := by
  rw [buildFromDescription_eq]
  show ((assembledNodes _ _ _ args).filter _).length = _
  unfold assembledNodes
  simp only [List.filter_append, List.filter_cons,
    show ∀ a b c k, ((domainSpecificHubNode a b c k).nodeType ==
      NodeType.webhook) = false from fun a b c k => rfl,
    show ∀ a k, ((domainResolutionNode a k).nodeType ==
      NodeType.webhook) = false from fun a k => rfl,
    show ∀ a k, ((domainCompletionNode a k).nodeType ==
      NodeType.webhook) = false from fun a k => rfl,
    List.filter_nil, cond_false]
  rw [nodesFromAux_filter_false (domainConceptNode _) _
      (fun c n => by simp only [domainConceptNode_nodeType]; rfl),
    nodesFromAux_filter_false (domainKnowledgeBaseNode _) _
      (fun kb n => rfl),
    nodesFromAux_filter_false (domainTransferNode _) _
      (fun t n => rfl)]
  simp only [Bool.false_eq_true, if_false, ite_false, List.nil_append,
    List.append_nil]
  rw [nodesFromAux_filter_true (domainWebhookNode _) _ (fun w n => rfl)]

/-- C5 counterexample to the claim as stated: a webhook descriptor with no
URL is NOT skipped — the assembler still wires a webhook-typed node for
it (`specialized_business_broken_2` below), and no count of wired
integrations is computed anywhere. -/
theorem claim_C5_counterexample :
    ((buildFromDescription ""
        { name := "",
          webhook_integrations := [{ name := "Broken" }] }).nodes.map
      (fun node => (node.id, node.nodeType == NodeType.webhook))) =
      [("specialized_business_hub_1", false),
       ("specialized_business_broken_2", true),
       ("specialized_business_resolution_3", false),
       ("specialized_business_completion_4", false)] := by
  rw [buildFromDescription_eq]
  have hconc : extractDomainSpecificConcepts ""
      (extractPrimaryDomain "" "") = [] := by
    unfold extractDomainSpecificConcepts
    rw [show extractPrimaryDomain "" "" = "specialized business" from rfl]
    norm_num
    exact List.mergeSort_nil
  rw [hconc]
  rfl

end DomainSpecificBranchingBuilder

theorem mem_of_mem_ite_nil {α : Type} {p : Prop} [Decidable p]
    {l : List α} {a : α} (h : a ∈ if p then l else []) : a ∈ l := by
  by_cases hp : p
  · rwa [if_pos hp] at h
  · rw [if_neg hp] at h
    exact absurd h (List.not_mem_nil a)

namespace DomainSpecificBranchingBuilder

theorem extract_concepts_mem_priority (description domain : String) :
    ∀ c ∈ extractDomainSpecificConcepts description domain,
      c = urgentConcept ∨ 1 ≤ c.priority := by
  intro c hc
  unfold extractDomainSpecificConcepts at hc
  rw [List.mem_mergeSort] at hc
  simp only [List.mem_append] at hc
  rcases hc with hc | hc
  · right
    by_cases hd : domain = "health insurance"
    · rw [if_pos hd] at hc
      simp only [List.mem_append] at hc
      rcases hc with ((((((hc | hc) | hc) | hc) | hc) | hc) | hc) <;>
        · have hmem := mem_of_mem_ite_nil hc
          simp only [List.mem_singleton] at hmem
          subst hmem
          decide
    · rw [if_neg hd] at hc
      exact absurd hc (List.not_mem_nil c)
  · left
    have hmem := mem_of_mem_ite_nil hc
    simp only [List.mem_singleton] at hmem
    exact hmem

theorem urgent_mem_extract (description domain : String)
    (h : containsAny ( description.lower) urgencyKeywords = true) :
    urgentConcept ∈ extractDomainSpecificConcepts description domain := by
  unfold extractDomainSpecificConcepts
  rw [List.mem_mergeSort]
  apply List.mem_append_right
  simp [h]

theorem containsAny_of_three (text : String)
    (h : containsAny text ["urgent", "emergency", "asap"] = true) :
    containsAny text urgencyKeywords = true := by
  simp only [containsAny, List.any_eq_true] at h ⊢
  obtain ⟨k, hk, hs⟩ := h
  simp only [List.mem_cons, List.not_mem_nil, or_false] at hk
  rcases hk with rfl | rfl | rfl
  · exact ⟨"urgent", by simp [urgencyKeywords], hs⟩
  · exact ⟨"emergency", by simp [urgencyKeywords], hs⟩
  · exact ⟨"asap", by simp [urgencyKeywords], hs⟩

theorem extract_concepts_pairwise (description domain : String) :
    (extractDomainSpecificConcepts description domain).Pairwise
      (fun a b => a.priority ≤ b.priority) := by
  unfold extractDomainSpecificConcepts
  refine List.Pairwise.imp ?_ (List.sorted_mergeSort ?_ ?_ _)
  · intro a b hab
    exact of_decide_eq_true hab
  · intro a b c hab hbc
    exact decide_eq_true
      (le_trans (of_decide_eq_true hab) (of_decide_eq_true hbc))
  · intro a b
    rcases Nat.le_total a.priority b.priority with hle | hle <;> simp [hle]

/-- C6: For every description whose lowercased text contains one of the
urgency keywords "urgent", "emergency", "asap" — regardless of the domain,
of other concept keywords, and of where the keyword occurs — the concept
list returned by `extractDomainSpecificConcepts` is sorted ascending by
priority and its first element is the urgent-assistance concept. -/
theorem claim_C6_urgency_first_sorted (description domain : String)
    (h : containsAny (description.lower)
      ["urgent", "emergency", "asap"] = true) :
    (extractDomainSpecificConcepts description domain).Pairwise
      (fun a b => a.priority ≤ b.priority) ∧
    (extractDomainSpecificConcepts description domain).head? =
      some urgentConcept := by
  have hsorted := extract_concepts_pairwise description domain
  refine ⟨hsorted, ?_⟩
  have hmem := urgent_mem_extract description domain
    (containsAny_of_three _ h)
  rcases hl : extractDomainSpecificConcepts description domain with _ | ⟨h0, t⟩
  · rw [hl] at hmem
    exact absurd hmem (List.not_mem_nil _)
  · rw [hl] at hsorted hmem
    simp only [List.head?_cons, Option.some.injEq]
    rcases List.mem_cons.mp hmem with heq | hmem2
    · exact heq.symm
    · have h1 := (List.pairwise_cons.mp hsorted).1 _ hmem2
      have h2 := extract_concepts_mem_priority description domain h0
        (by rw [hl]; exact List.mem_cons_self _ _)
      rcases h2 with heq | h2
      · exact heq
      · have h0p : urgentConcept.priority = 0 := rfl
        rw [h0p] at h1
        omega

end DomainSpecificBranchingBuilder

/-- C6 witness: the description "please help asap" contains an urgency
keyword, and the returned concept list is priority-sorted with the
urgent-assistance concept first. -/
theorem claim_C6_urgency_first_sorted_witness :
    (DomainSpecificBranchingBuilder.extractDomainSpecificConcepts
        "please help asap" "x").Pairwise
      (fun a b => a.priority ≤ b.priority) ∧
    (DomainSpecificBranchingBuilder.extractDomainSpecificConcepts
        "please help asap" "x").head? =
      some DomainSpecificBranchingBuilder.urgentConcept :=
  DomainSpecificBranchingBuilder.claim_C6_urgency_first_sorted
    "please help asap" "x" (by decide)

namespace DomainSpecificBranchingBuilder

/-- C7: For every input whose extracted primary domain is not
"health insurance", the concept extractor returns the urgent-assistance
concept alone when the description has an urgency keyword and the empty
list otherwise — never more than one concept — and the assembled graph has
exactly 1 (hub) + k + m + n + p + 2 (resolution, completion) nodes, so it
fans out only to the configured webhook / knowledge-base / transfer nodes
plus the optional urgent node. -/
theorem claim_C7_nonhealth_at_most_one_concept (d : String)
    (args : BuildArgs)
    (h : extractPrimaryDomain d args.name ≠ "health insurance") :
    (extractDomainSpecificConcepts d (extractPrimaryDomain d args.name) =
      if containsAny (d.lower) urgencyKeywords = true then [urgentConcept]
      else []) ∧
    (extractDomainSpecificConcepts d
      (extractPrimaryDomain d args.name)).length ≤ 1 ∧
    (buildFromDescription d args).nodes.length =
      1 + (extractDomainSpecificConcepts d
            (extractPrimaryDomain d args.name)).length +
        args.webhook_integrations.length + args.knowledge_bases.length +
        args.transfer_numbers.length + 2 := by
  have hextract : extractDomainSpecificConcepts d
      (extractPrimaryDomain d args.name) =
      if containsAny (d.lower) urgencyKeywords = true then [urgentConcept]
      else [] := by
    unfold extractDomainSpecificConcepts
    simp only []
    rw [if_neg h]
    by_cases hu : containsAny (d.lower) urgencyKeywords = true
    · rw [if_pos hu]
      simp [List.mergeSort_singleton]
    · rw [if_neg hu]
      simp [List.mergeSort_nil]
  refine ⟨hextract, ?_, ?_⟩
  · rw [hextract]
    split_ifs <;> simp
  · rw [buildFromDescription_eq]
    show (assembledNodes _ _ _ args).length = _
    unfold assembledNodes
    simp +arith [nodesFromAux_length]

end DomainSpecificBranchingBuilder

/-- C7 witness: "call me asap" with name "x" extracts a non-health domain,
yields exactly the urgent concept, and the degenerate option bag gives the
expected 1 + 1 + 0 + 0 + 0 + 2 node count. -/
theorem claim_C7_nonhealth_at_most_one_concept_witness :
    (DomainSpecificBranchingBuilder.extractDomainSpecificConcepts
        "call me asap"
        (DomainSpecificBranchingBuilder.extractPrimaryDomain
          "call me asap" "x") =
      if containsAny ("call me asap".lower)
          DomainSpecificBranchingBuilder.urgencyKeywords = true then
        [DomainSpecificBranchingBuilder.urgentConcept]
      else []) ∧
    (DomainSpecificBranchingBuilder.extractDomainSpecificConcepts
      "call me asap"
      (DomainSpecificBranchingBuilder.extractPrimaryDomain
        "call me asap" "x")).length ≤ 1 ∧
    (DomainSpecificBranchingBuilder.buildFromDescription "call me asap"
      { name := "x" }).nodes.length =
      1 + (DomainSpecificBranchingBuilder.extractDomainSpecificConcepts
            "call me asap"
            (DomainSpecificBranchingBuilder.extractPrimaryDomain
              "call me asap" "x")).length + 0 + 0 + 0 + 2 :=
  DomainSpecificBranchingBuilder.claim_C7_nonhealth_at_most_one_concept
    "call me asap" { name := "x" } (by decide)

namespace DomainSpecificBranchingBuilder

/-- C8 (amended): For every description whose lowercased text contains the
phrase "family of four, spouse and children, affordable options", the
concept list extracted FOR THE HEALTH-INSURANCE DOMAIN includes a
family_coverage concept and a budget_plans concept, and every node built
for a family_coverage concept extracts family_size and ages_of_dependents.
(As stated the claim is false: the health-insurance concept rules only run
when the extracted primary domain is "health insurance", which this phrase
alone does not trigger — see the counterexample.) -/
theorem claim_C8_family_budget_concepts (description : String)
    (hphrase : strIncludes (description.lower)
      "family of four, spouse and children, affordable options" = true) :
    (∃ c ∈ extractDomainSpecificConcepts description "health insurance",
       c.conceptType = "family_coverage") ∧
    (∃ c ∈ extractDomainSpecificConcepts description "health insurance",
       c.conceptType = "budget_plans") ∧
    (∀ (c : DomainConcept) (n : Nat), c.conceptType = "family_coverage" →
      "family_size" ∈ ((domainConceptNode "health insurance" c
          n).data.extractVars.getD []).map (fun v => v.varName) ∧
      "ages_of_dependents" ∈ ((domainConceptNode "health insurance" c
          n).data.extractVars.getD []).map (fun v => v.varName)) := by
  have hfam : containsAny (description.lower)
      ["family", "spouse", "children", "dependents"] = true := by
    simp only [containsAny, List.any_eq_true]
    exact ⟨"family", by simp, strIncludes_trans (by decide) hphrase⟩
  have hbud : containsAny (description.lower)
      ["budget", "affordable", "cost", "cheap", "low-cost"] = true := by
    simp only [containsAny, List.any_eq_true]
    exact ⟨"affordable", by simp, strIncludes_trans (by decide) hphrase⟩
  refine ⟨?_, ?_, ?_⟩
  · refine ⟨
      { conceptType := "family_coverage",
        condition := "needs family health insurance coverage",
        description := "Family health insurance plans and coverage options",
        priority := 1 }, ?_, rfl⟩
    unfold extractDomainSpecificConcepts
    simp only []
    rw [List.mem_mergeSort]
    apply List.mem_append_left
    simp only [if_true, ite_true]
    apply List.mem_append_left
    apply List.mem_append_left
    apply List.mem_append_left
    apply List.mem_append_left
    apply List.mem_append_left
    apply List.mem_append_right
    rw [if_pos hfam]
    exact List.mem_singleton_self _
  · refine ⟨
      { conceptType := "budget_plans",
        condition := "looking for budget-friendly insurance options",
        description := "Affordable health insurance solutions",
        priority := 2 }, ?_, rfl⟩
    unfold extractDomainSpecificConcepts
    simp only []
    rw [List.mem_mergeSort]
    apply List.mem_append_left
    simp only [if_true, ite_true]
    apply List.mem_append_left
    apply List.mem_append_right
    rw [if_pos hbud]
    exact List.mem_singleton_self _
  · intro c n hc
    rw [domainConceptNode_extractVars]
    unfold getDomainVariablesForConcept
    rw [hc]
    decide

end DomainSpecificBranchingBuilder

/-- C8 witness: a description that lowercases to text containing the
scenario phrase, for which the health-insurance concept list contains
family_coverage and budget_plans and the family node extracts family_size
and ages_of_dependents. -/
theorem claim_C8_family_budget_concepts_witness :
    (∃ c ∈ DomainSpecificBranchingBuilder.extractDomainSpecificConcepts
        "We need health insurance for our family of four, spouse and children, affordable options"
        "health insurance",
       c.conceptType = "family_coverage") ∧
    (∃ c ∈ DomainSpecificBranchingBuilder.extractDomainSpecificConcepts
        "We need health insurance for our family of four, spouse and children, affordable options"
        "health insurance",
       c.conceptType = "budget_plans") ∧
    (∀ (c : DomainConcept) (n : Nat),
      c.conceptType = "family_coverage" →
      "family_size" ∈
        ((DomainSpecificBranchingBuilder.domainConceptNode "health insurance"
          c n).data.extractVars.getD []).map (fun v => v.varName) ∧
      "ages_of_dependents" ∈
        ((DomainSpecificBranchingBuilder.domainConceptNode "health insurance"
          c n).data.extractVars.getD []).map (fun v => v.varName)) :=
  DomainSpecificBranchingBuilder.claim_C8_family_budget_concepts
    "We need health insurance for our family of four, spouse and children, affordable options"
    (by decide)

/-- C8 counterexample to the claim as stated: for the description that is
exactly the scenario phrase (and a name without domain keywords), the
pipeline extracts the fallback domain "specialized business", the
health-insurance concept rules never run, and the returned concept list is
empty — no family_coverage or budget_plans concept at all. -/
theorem claim_C8_counterexample :
    DomainSpecificBranchingBuilder.extractPrimaryDomain
      "family of four, spouse and children, affordable options" "x" =
      "specialized business" ∧
    DomainSpecificBranchingBuilder.extractDomainSpecificConcepts
      "family of four, spouse and children, affordable options"
      (DomainSpecificBranchingBuilder.extractPrimaryDomain
        "family of four, spouse and children, affordable options" "x") =
      [] := by
  refine ⟨rfl, ?_⟩
  unfold DomainSpecificBranchingBuilder.extractDomainSpecificConcepts
  rw [show DomainSpecificBranchingBuilder.extractPrimaryDomain
    "family of four, spouse and children, affordable options" "x" =
    "specialized business" from rfl]
  norm_num
  exact List.mergeSort_nil

/-- C9: The concept-extraction stage is deterministic — it is a pure
function of the description and name, so two evaluations on the same
input return the same domain, the same purpose, and the same concept list
(same members, same order). -/
theorem claim_C9_extractor_deterministic (description name : String) :
    (DomainSpecificBranchingBuilder.extractPrimaryDomain description name,
     DomainSpecificBranchingBuilder.extractPrimaryPurpose description,
     DomainSpecificBranchingBuilder.extractDomainSpecificConcepts description
       (DomainSpecificBranchingBuilder.extractPrimaryDomain description
         name)) =
    (DomainSpecificBranchingBuilder.extractPrimaryDomain description name,
     DomainSpecificBranchingBuilder.extractPrimaryPurpose description,
     DomainSpecificBranchingBuilder.extractDomainSpecificConcepts description
       (DomainSpecificBranchingBuilder.extractPrimaryDomain description
         name)) := rfl

/-- C10: For every company name and product, the enterprise-sales template
has exactly one End Call node (node_9) and a unique start node (node_2),
and both the high-value path (through the lead-scoring node node_3 and the
high-value specialist node_5) and the nurture path (through node_7) reach
that same terminal node by following edges forward from the start. -/
theorem claim_C10_sales_paths_reach_single_terminal (a : SalesArgs) :
    (((buildEnterpriseSalesPathway a).nodes.filter
        (fun n => n.nodeType == NodeType.endCall)).map (·.id) =
      ["node_9"]) ∧
    (((buildEnterpriseSalesPathway a).nodes.filter
        (fun n => n.data.isStart == some true)).map (·.id) = ["node_2"]) ∧
    Reaches (buildEnterpriseSalesPathway a).edges "node_2" "node_5" ∧
    Reaches (buildEnterpriseSalesPathway a).edges "node_5" "node_9" ∧
    Reaches (buildEnterpriseSalesPathway a).edges "node_2" "node_7" ∧
    Reaches (buildEnterpriseSalesPathway a).edges "node_7" "node_9" := by
  have hstep : ∀ x y : String,
      (x, y) ∈ (buildEnterpriseSalesPathway a).edges.map
        (fun e => (e.source, e.target)) →
      EdgeStep (buildEnterpriseSalesPathway a).edges x y := by
    intro x y hxy
    exact (edgeStep_iff_pair_mem _ x y).mpr hxy
  have h23 := hstep "node_2" "node_3" (by rw [salesEdgePairs]; decide)
  have h35 := hstep "node_3" "node_5" (by rw [salesEdgePairs]; decide)
  have h58 := hstep "node_5" "node_8" (by rw [salesEdgePairs]; decide)
  have h89 := hstep "node_8" "node_9" (by rw [salesEdgePairs]; decide)
  have h37 := hstep "node_3" "node_7" (by rw [salesEdgePairs]; decide)
  have h79 := hstep "node_7" "node_9" (by rw [salesEdgePairs]; decide)
  refine ⟨rfl, rfl, ?_, ?_, ?_, ?_⟩
  · exact Relation.ReflTransGen.head h23 (Relation.ReflTransGen.single h35)
  · exact Relation.ReflTransGen.head h58 (Relation.ReflTransGen.single h89)
  · exact Relation.ReflTransGen.head h23 (Relation.ReflTransGen.single h37)
  · exact Relation.ReflTransGen.single h79
